import Mathlib

/-!
# Binding fidelity of the llpkg packages

A shallow embedding of the constant tables, struct declarations, link directives and
function bodies of
the Go binding files (`xz_utils/liblzma/liblzma_autogen.go`, `bzip2/bzlib.go`,
`libtool/ltdl.go`, `libtool/lt_dlloader.go`, `lua/lua.go`, `lua/lauxlib.go`,
`lua/lualib.go`, `lua/luaconf.go`) together with the properties the specification states
about them.

Go's `c.Int` is a 32-bit signed integer; the constants below are embedded as
`Int`, and every value that occurs is far inside the 32-bit range.
-/

set_option autoImplicit false

/-! ## Definitions -/

namespace abi

/-- Types that occur in the embedded declarations. The Go types are written by their
underlying types: `c.Int` and the enum types are `cInt`, `c.Uint` is `cUint`, every `*T`,
`unsafe.Pointer` and function pointer is `pointer`. `union` is not a Go type; it is used
only to describe C declarations of the wrapped libraries. -/
inductive GoType where
  | int8
  | uint8
  | uint16
  | uint32
  | uint64
  | float64
  | cInt
  | cUint
  | uintptr
  | pointer
  | array (len : Nat) (elem : GoType)
  | struct (fields : List (String × GoType))
  | union (members : List (String × GoType))

/-- Length of a Go array type; `none` for every other type. -/
def GoType.arrayLen : GoType → Option Nat
  | .array len _ => some len
  | _ => none

/-- Fields of a struct type; no fields for every other type. -/
def GoType.fields : GoType → List (String × GoType)
  | .struct fields => fields
  | _ => []

/-- Number of elements of the array field `name` of a struct, when it has such a field. -/
def fieldArrayLen (fields : List (String × GoType)) (name : String) : Option Nat :=
  (fields.lookup name).bind GoType.arrayLen

/-- Modelled from the spec: a data model, as the layout claims name it: the size of
pointers, `uintptr` and `size_t`, and the alignment of the 8-byte scalars. `int`,
`unsigned int` and enums are 4 bytes in every model considered. -/
structure DataModel where
  ptrSize : Nat
  align64 : Nat

/-- LP64: 8-byte pointers and `size_t`, natural alignment. -/
def LP64 : DataModel := ⟨8, 8⟩

/-- ILP32: 4-byte pointers and `size_t`, natural alignment (8-byte scalars 8-aligned). -/
def ILP32 : DataModel := ⟨4, 8⟩

/-- ILP32 as on i386, where 8-byte scalars inside structs are 4-aligned. -/
def ILP32_i386 : DataModel := ⟨4, 4⟩

/-- Round `off` up to the next multiple of `a`. -/
def alignUp (off a : Nat) : Nat :=
  (off + a - 1) / a * a

mutual
/-- Modelled from the spec: alignment of a type under natural alignment: a scalar is
aligned to its size, an array to its element, a struct or union to its most aligned
member. The rule is the one the Go compiler and the C ABI share; neither is among the
sources. -/
def GoType.align (m : DataModel) : GoType → Nat
  | .int8 | .uint8 => 1
  | .uint16 => 2
  | .uint32 | .cInt | .cUint => 4
  | .uint64 | .float64 => m.align64
  | .uintptr | .pointer => m.ptrSize
  | .array _ elem => elem.align m
  | .struct fields => maxAlign m fields
  | .union members => maxAlign m members
/-- Largest alignment among the members; 1 for an empty list. -/
def maxAlign (m : DataModel) : List (String × GoType) → Nat
  | [] => 1
  | (_, t) :: rest => max (t.align m) (maxAlign m rest)
end

mutual
/-- Modelled from the spec: size of a type: a struct places each field at the next
offset that is a multiple of the field's alignment and is padded at the end to a multiple
of its own alignment; a union is as large as its largest member, padded likewise. -/
def GoType.size (m : DataModel) : GoType → Nat
  | .int8 | .uint8 => 1
  | .uint16 => 2
  | .uint32 | .cInt | .cUint => 4
  | .uint64 | .float64 => 8
  | .uintptr | .pointer => m.ptrSize
  | .array len elem => len * elem.size m
  | .struct fields => alignUp (endOffset m 0 fields) (maxAlign m fields)
  | .union members => alignUp (maxSize m members) (maxAlign m members)
/-- Offset just past the last field when the fields are laid out starting at `off`. -/
def endOffset (m : DataModel) (off : Nat) : List (String × GoType) → Nat
  | [] => off
  | (_, t) :: rest => endOffset m (alignUp off (t.align m) + t.size m) rest
/-- Largest size among the members; 0 for an empty list. -/
def maxSize (m : DataModel) : List (String × GoType) → Nat
  | [] => 0
  | (_, t) :: rest => max (t.size m) (maxSize m rest)
end

/-- Byte offset of every field when the fields are laid out starting at `off`. -/
def offsetsFrom (m : DataModel) (off : Nat) : List (String × GoType) → List (String × Nat)
  | [] => []
  | (name, t) :: rest =>
    (name, alignUp off (t.align m)) ::
      offsetsFrom m (alignUp off (t.align m) + t.size m) rest

/-- Byte offsets of the fields of a struct. -/
def offsets (m : DataModel) (fields : List (String × GoType)) : List (String × Nat) :=
  offsetsFrom m 0 fields

/-- Total size of the struct with the given fields, tail padding included. -/
def structSize (m : DataModel) (fields : List (String × GoType)) : Nat :=
  (GoType.struct fields).size m

/-- Padding bytes inserted in front of every field when laid out starting at `off`. -/
def paddingFrom (m : DataModel) (off : Nat) : List (String × GoType) → List (String × Nat)
  | [] => []
  | (name, t) :: rest =>
    (name, alignUp off (t.align m) - off) ::
      paddingFrom m (alignUp off (t.align m) + t.size m) rest

/-- Padding bytes in front of every field of a struct. -/
def padding (m : DataModel) (fields : List (String × GoType)) : List (String × Nat) :=
  paddingFrom m 0 fields

/-- Padding bytes after the last field of a struct. -/
def tailPadding (m : DataModel) (fields : List (String × GoType)) : Nat :=
  structSize m fields - endOffset m 0 fields

end abi

namespace liblzma

open abi

/-- Go: `const LZMA_CHECK_ID_MAX = 15`. -/
def LZMA_CHECK_ID_MAX : Int := 15

/-- Go: `const LZMA_CHECK_SIZE_MAX = 64`. -/
def LZMA_CHECK_SIZE_MAX : Int := 64

/-- Go: `type LzmaRet c.Int`. -/
abbrev LzmaRet := Int

def LZMAOK : LzmaRet := 0
def LZMASTREAMEND : LzmaRet := 1
def LZMANOCHECK : LzmaRet := 2
def LZMAUNSUPPORTEDCHECK : LzmaRet := 3
def LZMAGETCHECK : LzmaRet := 4
def LZMAMEMERROR : LzmaRet := 5
def LZMAMEMLIMITERROR : LzmaRet := 6
def LZMAFORMATERROR : LzmaRet := 7
def LZMAOPTIONSERROR : LzmaRet := 8
def LZMADATAERROR : LzmaRet := 9
def LZMABUFERROR : LzmaRet := 10
def LZMAPROGERROR : LzmaRet := 11
def LZMASEEKNEEDED : LzmaRet := 12
def LZMARETINTERNAL1 : LzmaRet := 101
def LZMARETINTERNAL2 : LzmaRet := 102
def LZMARETINTERNAL3 : LzmaRet := 103
def LZMARETINTERNAL4 : LzmaRet := 104
def LZMARETINTERNAL5 : LzmaRet := 105
def LZMARETINTERNAL6 : LzmaRet := 106
def LZMARETINTERNAL7 : LzmaRet := 107
def LZMARETINTERNAL8 : LzmaRet := 108

/-- The `const ( ... )` block of type `LzmaRet`, in declaration order. -/
def LzmaRet_consts : List (String × LzmaRet) :=
  [("LZMAOK", LZMAOK), ("LZMASTREAMEND", LZMASTREAMEND), ("LZMANOCHECK", LZMANOCHECK),
   ("LZMAUNSUPPORTEDCHECK", LZMAUNSUPPORTEDCHECK), ("LZMAGETCHECK", LZMAGETCHECK),
   ("LZMAMEMERROR", LZMAMEMERROR), ("LZMAMEMLIMITERROR", LZMAMEMLIMITERROR),
   ("LZMAFORMATERROR", LZMAFORMATERROR), ("LZMAOPTIONSERROR", LZMAOPTIONSERROR),
   ("LZMADATAERROR", LZMADATAERROR), ("LZMABUFERROR", LZMABUFERROR),
   ("LZMAPROGERROR", LZMAPROGERROR), ("LZMASEEKNEEDED", LZMASEEKNEEDED),
   ("LZMARETINTERNAL1", LZMARETINTERNAL1), ("LZMARETINTERNAL2", LZMARETINTERNAL2),
   ("LZMARETINTERNAL3", LZMARETINTERNAL3), ("LZMARETINTERNAL4", LZMARETINTERNAL4),
   ("LZMARETINTERNAL5", LZMARETINTERNAL5), ("LZMARETINTERNAL6", LZMARETINTERNAL6),
   ("LZMARETINTERNAL7", LZMARETINTERNAL7), ("LZMARETINTERNAL8", LZMARETINTERNAL8)]

/-- Go: `type LzmaAction c.Int`. -/
abbrev LzmaAction := Int

def LZMARUN : LzmaAction := 0
def LZMASYNCFLUSH : LzmaAction := 1
def LZMAFULLFLUSH : LzmaAction := 2
def LZMAFULLBARRIER : LzmaAction := 4
def LZMAFINISH : LzmaAction := 3

/-- The `const ( ... )` block of type `LzmaAction`, in declaration order
(`LZMAFULLBARRIER` stands before `LZMAFINISH`). -/
def LzmaAction_consts : List (String × LzmaAction) :=
  [("LZMARUN", LZMARUN), ("LZMASYNCFLUSH", LZMASYNCFLUSH), ("LZMAFULLFLUSH", LZMAFULLFLUSH),
   ("LZMAFULLBARRIER", LZMAFULLBARRIER), ("LZMAFINISH", LZMAFINISH)]

/-- Go: `type LzmaCheck c.Int`. -/
abbrev LzmaCheck := Int

def LZMACHECKNONE : LzmaCheck := 0
def LZMACHECKCRC32 : LzmaCheck := 1
def LZMACHECKCRC64 : LzmaCheck := 4
def LZMACHECKSHA256 : LzmaCheck := 10

/-- The `const ( ... )` block of type `LzmaCheck`, in declaration order. -/
def LzmaCheck_consts : List (String × LzmaCheck) :=
  [("LZMACHECKNONE", LZMACHECKNONE), ("LZMACHECKCRC32", LZMACHECKCRC32),
   ("LZMACHECKCRC64", LZMACHECKCRC64), ("LZMACHECKSHA256", LZMACHECKSHA256)]

/-- Largest value of Go's `uint32` (C's `UINT32_MAX`). -/
def UINT32_MAX : Nat := 4294967295

/-- Modelled from the spec: the bit that stands for one check ID in the result of
`LzmaIndexChecks`. The method is linked to the C function `lzma_index_checks`, whose body
is not among the sources; the doc comment on the Go declaration says
"The bitmask is 1 << check_id, e.g. CRC32 is 1 << 1 and SHA-256 is 1 << 10", and the
declared result type is `uint32`, so the shift is taken modulo 2^32. -/
def LzmaIndexChecks_mask (check_id : Nat) : Nat :=
  (1 <<< check_id) % 2 ^ 32

/-- The Check-size table as the doc comment of `LzmaCheckSize` prints it:
`{ 0, 4, 4, 4, 8, 8, 8, 16, 16, 16, 32, 32, 32, 64, 64, 64 }`, indexed by check ID. -/
def check_size_table : List Nat :=
  [0, 4, 4, 4, 8, 8, 8, 16, 16, 16, 32, 32, 32, 64, 64, 64]

/-- Modelled from the spec: the C function `lzma_check_size` that the Go method
`LzmaCheck.LzmaCheckSize` is linked to (`llgo:link ... C.lzma_check_size`). Its body is
not among the sources (the Go body is the binding placeholder `return 0`, which the link
directive replaces); the model follows the doc comment on the declaration: "returns the
size (in bytes) of the Check field with the specified Check ID. The values are: { ... }.
If the argument is not in the range [0, 15], UINT32_MAX is returned." -/
def lzma_check_size (check : LzmaCheck) : Nat :=
  if 0 ≤ check ∧ check ≤ 15 then check_size_table.getD check.toNat 0 else UINT32_MAX

/-- Field list of `type LzmaBlock struct`, in declaration order. The named types are
written by their underlying types: `LzmaCheck` and `LzmaReservedEnum` are `c.Int`,
`LzmaVli` is `uint64`, `LzmaBool` is `int8`, `*LzmaFilter` and `unsafe.Pointer` are
pointers. -/
def LzmaBlock : List (String × GoType) :=
  [("Version", .uint32), ("HeaderSize", .uint32), ("Check", .cInt),
   ("CompressedSize", .uint64), ("UncompressedSize", .uint64), ("Filters", .pointer),
   ("RawCheck", .array 64 .uint8),
   ("ReservedPtr1", .pointer), ("ReservedPtr2", .pointer), ("ReservedPtr3", .pointer),
   ("ReservedInt1", .uint32), ("ReservedInt2", .uint32),
   ("ReservedInt3", .uint64), ("ReservedInt4", .uint64), ("ReservedInt5", .uint64),
   ("ReservedInt6", .uint64), ("ReservedInt7", .uint64), ("ReservedInt8", .uint64),
   ("ReservedEnum1", .cInt), ("ReservedEnum2", .cInt), ("ReservedEnum3", .cInt),
   ("ReservedEnum4", .cInt),
   ("IgnoreCheck", .int8), ("ReservedBool2", .int8), ("ReservedBool3", .int8),
   ("ReservedBool4", .int8), ("ReservedBool5", .int8), ("ReservedBool6", .int8),
   ("ReservedBool7", .int8), ("ReservedBool8", .int8)]

/-- Field list of `type LzmaStream struct`, in declaration order; `LzmaReservedEnum` is
`c.Int`. -/
def LzmaStream : List (String × GoType) :=
  [("NextIn", .pointer), ("AvailIn", .uintptr), ("TotalIn", .uint64),
   ("NextOut", .pointer), ("AvailOut", .uintptr), ("TotalOut", .uint64),
   ("Allocator", .pointer), ("Internal", .pointer),
   ("ReservedPtr1", .pointer), ("ReservedPtr2", .pointer), ("ReservedPtr3", .pointer),
   ("ReservedPtr4", .pointer),
   ("SeekPos", .uint64), ("ReservedInt2", .uint64),
   ("ReservedInt3", .uintptr), ("ReservedInt4", .uintptr),
   ("ReservedEnum1", .cInt), ("ReservedEnum2", .cInt)]

/-- Fields of the anonymous struct `LzmaIndexIter.Stream`; `LzmaVli` is `uint64`. -/
def LzmaIndexIter_Stream : List (String × GoType) :=
  [("Flags", .pointer), ("ReservedPtr1", .pointer), ("ReservedPtr2", .pointer),
   ("ReservedPtr3", .pointer),
   ("Number", .uint64), ("BlockCount", .uint64), ("CompressedOffset", .uint64),
   ("UncompressedOffset", .uint64), ("CompressedSize", .uint64),
   ("UncompressedSize", .uint64), ("Padding", .uint64),
   ("ReservedVli1", .uint64), ("ReservedVli2", .uint64), ("ReservedVli3", .uint64),
   ("ReservedVli4", .uint64)]

/-- Fields of the anonymous struct `LzmaIndexIter.Block`. -/
def LzmaIndexIter_Block : List (String × GoType) :=
  [("NumberInFile", .uint64), ("CompressedFileOffset", .uint64),
   ("UncompressedFileOffset", .uint64), ("NumberInStream", .uint64),
   ("CompressedStreamOffset", .uint64), ("UncompressedStreamOffset", .uint64),
   ("UncompressedSize", .uint64), ("UnpaddedSize", .uint64), ("TotalSize", .uint64),
   ("ReservedVli1", .uint64), ("ReservedVli2", .uint64), ("ReservedVli3", .uint64),
   ("ReservedVli4", .uint64),
   ("ReservedPtr1", .pointer), ("ReservedPtr2", .pointer), ("ReservedPtr3", .pointer),
   ("ReservedPtr4", .pointer)]

/-- Field list of `type LzmaIndexIter struct`: two anonymous structs and
`Internal [6]struct { P unsafe.Pointer }`. -/
def LzmaIndexIter : List (String × GoType) :=
  [("Stream", .struct LzmaIndexIter_Stream),
   ("Block", .struct LzmaIndexIter_Block),
   ("Internal", .array 6 (.struct [("P", .pointer)]))]

/-- Modelled from the spec: upstream `lzma_index_iter`, whose header is not among the
sources. Its `stream` and `block` members have the members the Go declaration lists; its
last member is `union { const void *p; size_t s; lzma_vli v; } internal[6]`, with
`lzma_vli` the 64-bit `LzmaVli`. -/
def lzma_index_iter : List (String × GoType) :=
  [("Stream", .struct LzmaIndexIter_Stream),
   ("Block", .struct LzmaIndexIter_Block),
   ("Internal", .array 6 (.union [("p", .pointer), ("s", .uintptr), ("v", .uint64)]))]

/-- Go: `type LzmaIndexIterMode c.Int`. -/
abbrev LzmaIndexIterMode := Int

def LZMAINDEXITERANY : LzmaIndexIterMode := 0
def LZMAINDEXITERSTREAM : LzmaIndexIterMode := 1
def LZMAINDEXITERBLOCK : LzmaIndexIterMode := 2
def LZMAINDEXITERNONEMPTYBLOCK : LzmaIndexIterMode := 3

/-- The `const ( ... )` block of type `LzmaIndexIterMode`, in declaration order. -/
def LzmaIndexIterMode_consts : List (String × LzmaIndexIterMode) :=
  [("LZMAINDEXITERANY", LZMAINDEXITERANY), ("LZMAINDEXITERSTREAM", LZMAINDEXITERSTREAM),
   ("LZMAINDEXITERBLOCK", LZMAINDEXITERBLOCK),
   ("LZMAINDEXITERNONEMPTYBLOCK", LZMAINDEXITERNONEMPTYBLOCK)]

/-- Every `func` declaration of package `liblzma` (`liblzma_autogen.go`), in file order,
each with the C symbols named by the link directives directly above it. -/
def link_decls : List (String × List String) :=
  [("LzmaVersionNumber", ["lzma_version_number"]),
   ("LzmaVersionString", ["lzma_version_string"]), ("(*LzmaStream).LzmaCode", ["lzma_code"]),
   ("(*LzmaStream).LzmaEnd", ["lzma_end"]),
   ("(*LzmaStream).LzmaGetProgress", ["lzma_get_progress"]),
   ("(*LzmaStream).LzmaMemusage", ["lzma_memusage"]),
   ("(*LzmaStream).LzmaMemlimitGet", ["lzma_memlimit_get"]),
   ("(*LzmaStream).LzmaMemlimitSet", ["lzma_memlimit_set"]),
   ("LzmaVli.LzmaVliEncode", ["lzma_vli_encode"]),
   ("(*LzmaVli).LzmaVliDecode", ["lzma_vli_decode"]),
   ("LzmaVli.LzmaVliSize", ["lzma_vli_size"]),
   ("LzmaCheck.LzmaCheckIsSupported", ["lzma_check_is_supported"]),
   ("LzmaCheck.LzmaCheckSize", ["lzma_check_size"]), ("LzmaCrc32", ["lzma_crc32"]),
   ("LzmaCrc64", ["lzma_crc64"]), ("(*LzmaStream).LzmaGetCheck", ["lzma_get_check"]),
   ("LzmaVli.LzmaFilterEncoderIsSupported", ["lzma_filter_encoder_is_supported"]),
   ("LzmaVli.LzmaFilterDecoderIsSupported", ["lzma_filter_decoder_is_supported"]),
   ("(*LzmaFilter).LzmaFiltersCopy", ["lzma_filters_copy"]),
   ("(*LzmaFilter).LzmaFiltersFree", ["lzma_filters_free"]),
   ("(*LzmaFilter).LzmaRawEncoderMemusage", ["lzma_raw_encoder_memusage"]),
   ("(*LzmaFilter).LzmaRawDecoderMemusage", ["lzma_raw_decoder_memusage"]),
   ("(*LzmaStream).LzmaRawEncoder", ["lzma_raw_encoder"]),
   ("(*LzmaStream).LzmaRawDecoder", ["lzma_raw_decoder"]),
   ("(*LzmaStream).LzmaFiltersUpdate", ["lzma_filters_update"]),
   ("(*LzmaFilter).LzmaRawBufferEncode", ["lzma_raw_buffer_encode"]),
   ("(*LzmaFilter).LzmaRawBufferDecode", ["lzma_raw_buffer_decode"]),
   ("LzmaPropertiesSize", ["lzma_properties_size"]),
   ("(*LzmaFilter).LzmaPropertiesEncode", ["lzma_properties_encode"]),
   ("(*LzmaFilter).LzmaPropertiesDecode", ["lzma_properties_decode"]),
   ("LzmaFilterFlagsSize", ["lzma_filter_flags_size"]),
   ("(*LzmaFilter).LzmaFilterFlagsEncode", ["lzma_filter_flags_encode"]),
   ("(*LzmaFilter).LzmaFilterFlagsDecode", ["lzma_filter_flags_decode"]),
   ("LzmaStrToFilters", ["lzma_str_to_filters"]),
   ("LzmaStrFromFilters", ["lzma_str_from_filters"]),
   ("LzmaStrListFilters", ["lzma_str_list_filters"]),
   ("LzmaMatchFinder.LzmaMfIsSupported", ["lzma_mf_is_supported"]),
   ("LzmaMode.LzmaModeIsSupported", ["lzma_mode_is_supported"]),
   ("(*LzmaOptionsLzma).LzmaLzmaPreset", ["lzma_lzma_preset"]),
   ("LzmaEasyEncoderMemusage", ["lzma_easy_encoder_memusage"]),
   ("LzmaEasyDecoderMemusage", ["lzma_easy_decoder_memusage"]),
   ("(*LzmaStream).LzmaEasyEncoder", ["lzma_easy_encoder"]),
   ("LzmaEasyBufferEncode", ["lzma_easy_buffer_encode"]),
   ("(*LzmaStream).LzmaStreamEncoder", ["lzma_stream_encoder"]),
   ("(*LzmaMt).LzmaStreamEncoderMtMemusage", ["lzma_stream_encoder_mt_memusage"]),
   ("(*LzmaStream).LzmaStreamEncoderMt", ["lzma_stream_encoder_mt"]),
   ("(*LzmaStream).LzmaAloneEncoder", ["lzma_alone_encoder"]),
   ("LzmaStreamBufferBound", ["lzma_stream_buffer_bound"]),
   ("(*LzmaFilter).LzmaStreamBufferEncode", ["lzma_stream_buffer_encode"]),
   ("(*LzmaStream).LzmaMicrolzmaEncoder", ["lzma_microlzma_encoder"]),
   ("(*LzmaStream).LzmaStreamDecoder", ["lzma_stream_decoder"]),
   ("(*LzmaStream).LzmaStreamDecoderMt", ["lzma_stream_decoder_mt"]),
   ("(*LzmaStream).LzmaAutoDecoder", ["lzma_auto_decoder"]),
   ("(*LzmaStream).LzmaAloneDecoder", ["lzma_alone_decoder"]),
   ("(*LzmaStream).LzmaLzipDecoder", ["lzma_lzip_decoder"]),
   ("LzmaStreamBufferDecode", ["lzma_stream_buffer_decode"]),
   ("(*LzmaStream).LzmaMicrolzmaDecoder", ["lzma_microlzma_decoder"]),
   ("(*LzmaStreamFlags).LzmaStreamHeaderEncode", ["lzma_stream_header_encode"]),
   ("(*LzmaStreamFlags).LzmaStreamFooterEncode", ["lzma_stream_footer_encode"]),
   ("(*LzmaStreamFlags).LzmaStreamHeaderDecode", ["lzma_stream_header_decode"]),
   ("(*LzmaStreamFlags).LzmaStreamFooterDecode", ["lzma_stream_footer_decode"]),
   ("(*LzmaStreamFlags).LzmaStreamFlagsCompare", ["lzma_stream_flags_compare"]),
   ("(*LzmaBlock).LzmaBlockHeaderSize", ["lzma_block_header_size"]),
   ("(*LzmaBlock).LzmaBlockHeaderEncode", ["lzma_block_header_encode"]),
   ("(*LzmaBlock).LzmaBlockHeaderDecode", ["lzma_block_header_decode"]),
   ("(*LzmaBlock).LzmaBlockCompressedSize", ["lzma_block_compressed_size"]),
   ("(*LzmaBlock).LzmaBlockUnpaddedSize", ["lzma_block_unpadded_size"]),
   ("(*LzmaBlock).LzmaBlockTotalSize", ["lzma_block_total_size"]),
   ("(*LzmaStream).LzmaBlockEncoder", ["lzma_block_encoder"]),
   ("(*LzmaStream).LzmaBlockDecoder", ["lzma_block_decoder"]),
   ("LzmaBlockBufferBound", ["lzma_block_buffer_bound"]),
   ("(*LzmaBlock).LzmaBlockBufferEncode", ["lzma_block_buffer_encode"]),
   ("(*LzmaBlock).LzmaBlockUncompEncode", ["lzma_block_uncomp_encode"]),
   ("(*LzmaBlock).LzmaBlockBufferDecode", ["lzma_block_buffer_decode"]),
   ("LzmaVli.LzmaIndexMemusage", ["lzma_index_memusage"]),
   ("(*LzmaIndex).LzmaIndexMemused", ["lzma_index_memused"]),
   ("(*LzmaAllocator).LzmaIndexInit", ["lzma_index_init"]),
   ("(*LzmaIndex).LzmaIndexEnd", ["lzma_index_end"]),
   ("(*LzmaIndex).LzmaIndexAppend", ["lzma_index_append"]),
   ("(*LzmaIndex).LzmaIndexStreamFlags", ["lzma_index_stream_flags"]),
   ("(*LzmaIndex).LzmaIndexChecks", ["lzma_index_checks"]),
   ("(*LzmaIndex).LzmaIndexStreamPadding", ["lzma_index_stream_padding"]),
   ("(*LzmaIndex).LzmaIndexStreamCount", ["lzma_index_stream_count"]),
   ("(*LzmaIndex).LzmaIndexBlockCount", ["lzma_index_block_count"]),
   ("(*LzmaIndex).LzmaIndexSize", ["lzma_index_size"]),
   ("(*LzmaIndex).LzmaIndexStreamSize", ["lzma_index_stream_size"]),
   ("(*LzmaIndex).LzmaIndexTotalSize", ["lzma_index_total_size"]),
   ("(*LzmaIndex).LzmaIndexFileSize", ["lzma_index_file_size"]),
   ("(*LzmaIndex).LzmaIndexUncompressedSize", ["lzma_index_uncompressed_size"]),
   ("(*LzmaIndexIter).LzmaIndexIterInit", ["lzma_index_iter_init"]),
   ("(*LzmaIndexIter).LzmaIndexIterRewind", ["lzma_index_iter_rewind"]),
   ("(*LzmaIndexIter).LzmaIndexIterNext", ["lzma_index_iter_next"]),
   ("(*LzmaIndexIter).LzmaIndexIterLocate", ["lzma_index_iter_locate"]),
   ("(*LzmaIndex).LzmaIndexCat", ["lzma_index_cat"]),
   ("(*LzmaIndex).LzmaIndexDup", ["lzma_index_dup"]),
   ("(*LzmaStream).LzmaIndexEncoder", ["lzma_index_encoder"]),
   ("(*LzmaStream).LzmaIndexDecoder", ["lzma_index_decoder"]),
   ("(*LzmaIndex).LzmaIndexBufferEncode", ["lzma_index_buffer_encode"]),
   ("LzmaIndexBufferDecode", ["lzma_index_buffer_decode"]),
   ("(*LzmaStream).LzmaFileInfoDecoder", ["lzma_file_info_decoder"]),
   ("(*LzmaIndexHash).LzmaIndexHashInit", ["lzma_index_hash_init"]),
   ("(*LzmaIndexHash).LzmaIndexHashEnd", ["lzma_index_hash_end"]),
   ("(*LzmaIndexHash).LzmaIndexHashAppend", ["lzma_index_hash_append"]),
   ("(*LzmaIndexHash).LzmaIndexHashDecode", ["lzma_index_hash_decode"]),
   ("(*LzmaIndexHash).LzmaIndexHashSize", ["lzma_index_hash_size"]),
   ("LzmaPhysmem", ["lzma_physmem"]), ("LzmaCputhreads", ["lzma_cputhreads"])]

end liblzma

namespace bzip2

open abi

def BZ_RUN : Int := 0
def BZ_FLUSH : Int := 1
def BZ_FINISH : Int := 2
def BZ_OK : Int := 0
def BZ_RUN_OK : Int := 1
def BZ_FLUSH_OK : Int := 2
def BZ_FINISH_OK : Int := 3
def BZ_STREAM_END : Int := 4
def BZ_MAX_UNUSED : Int := 5000

/-- Every constant that package `bzip2` declares (`bzlib.go` is the package's only file
and has no `const` declaration besides these nine), in declaration order. -/
def consts : List (String × Int) :=
  [("BZ_RUN", BZ_RUN), ("BZ_FLUSH", BZ_FLUSH), ("BZ_FINISH", BZ_FINISH),
   ("BZ_OK", BZ_OK), ("BZ_RUN_OK", BZ_RUN_OK), ("BZ_FLUSH_OK", BZ_FLUSH_OK),
   ("BZ_FINISH_OK", BZ_FINISH_OK), ("BZ_STREAM_END", BZ_STREAM_END),
   ("BZ_MAX_UNUSED", BZ_MAX_UNUSED)]

/-- The action constants, the first three of the file. -/
def action_consts : List (String × Int) :=
  [("BZ_RUN", BZ_RUN), ("BZ_FLUSH", BZ_FLUSH), ("BZ_FINISH", BZ_FINISH)]

/-- The status constants that follow the action constants. -/
def status_consts : List (String × Int) :=
  [("BZ_OK", BZ_OK), ("BZ_RUN_OK", BZ_RUN_OK), ("BZ_FLUSH_OK", BZ_FLUSH_OK),
   ("BZ_FINISH_OK", BZ_FINISH_OK), ("BZ_STREAM_END", BZ_STREAM_END)]

/-- Modelled from the spec: the status codes that `bzlib.h` defines and a step call can
return, with the header's values. The header is not among the sources; the list is the
one the specification's claim about the status codes spells out. -/
def bzlib_h_status_codes : List (String × Int) :=
  [("BZ_OK", 0), ("BZ_RUN_OK", 1), ("BZ_FLUSH_OK", 2), ("BZ_FINISH_OK", 3),
   ("BZ_STREAM_END", 4), ("BZ_SEQUENCE_ERROR", -1), ("BZ_PARAM_ERROR", -2),
   ("BZ_MEM_ERROR", -3), ("BZ_DATA_ERROR", -4), ("BZ_DATA_ERROR_MAGIC", -5),
   ("BZ_IO_ERROR", -6), ("BZ_UNEXPECTED_EOF", -7), ("BZ_OUTBUFF_FULL", -8),
   ("BZ_CONFIG_ERROR", -9)]

/-- Whether the package declares some constant with the value `v`. -/
def declaresValue (v : Int) : Bool :=
  consts.any (fun d => d.2 == v)

/-- Field list of `type BzStream struct`, in declaration order. -/
def BzStream : List (String × GoType) :=
  [("NextIn", .pointer), ("AvailIn", .cUint), ("TotalInLo32", .cUint),
   ("TotalInHi32", .cUint),
   ("NextOut", .pointer), ("AvailOut", .cUint), ("TotalOutLo32", .cUint),
   ("TotalOutHi32", .cUint),
   ("State", .pointer), ("Bzalloc", .pointer), ("Bzfree", .pointer), ("Opaque", .pointer)]

/-- Every `func` declaration of package `bzip2` (`bzlib.go`), in file order, each with the
C symbols named by the link directives that stand directly above it
(`// llgo:link <declaration> C.<symbol>` or `//go:linkname <declaration> C.<symbol>`).
A method is written with its receiver, as the directive writes it. -/
def link_decls : List (String × List String) :=
  [("(*BzStream).CompressInit", ["BZ2_bzCompressInit"]),
   ("(*BzStream).Compress", ["BZ2_bzCompress"]),
   ("(*BzStream).CompressEnd", ["BZ2_bzCompressEnd"]),
   ("(*BzStream).DecompressInit", ["BZ2_bzDecompressInit"]),
   ("(*BzStream).Decompress", ["BZ2_bzDecompress"]),
   ("(*BzStream).DecompressEnd", ["BZ2_bzDecompressEnd"]), ("ReadOpen", ["BZ2_bzReadOpen"]),
   ("ReadClose", ["BZ2_bzReadClose"]), ("ReadGetUnused", ["BZ2_bzReadGetUnused"]),
   ("Read", ["BZ2_bzRead"]), ("WriteOpen", ["BZ2_bzWriteOpen"]), ("Write", ["BZ2_bzWrite"]),
   ("WriteClose", ["BZ2_bzWriteClose"]), ("WriteClose64", ["BZ2_bzWriteClose64"]),
   ("BuffToBuffCompress", ["BZ2_bzBuffToBuffCompress"]),
   ("BuffToBuffDecompress", ["BZ2_bzBuffToBuffDecompress"]),
   ("LibVersion", ["BZ2_bzlibVersion"]), ("Open", ["BZ2_bzopen"]), ("Dopen", ["BZ2_bzdopen"]),
   ("(*BZFILE).Read", ["BZ2_bzread"]), ("(*BZFILE).Write", ["BZ2_bzwrite"]),
   ("(*BZFILE).Flush", ["BZ2_bzflush"]), ("(*BZFILE).Close", ["BZ2_bzclose"]),
   ("(*BZFILE).Error", ["BZ2_bzerror"])]

end bzip2

namespace libtool

open abi

/-- Field list of `type LtDlinfo struct` (`ltdl.go`), in declaration order: the three
flags are three fields of type `c.Uint`. -/
def LtDlinfo : List (String × GoType) :=
  [("Filename", .pointer), ("Name", .pointer), ("RefCount", .cInt),
   ("IsResident", .cUint), ("IsSymglobal", .cUint), ("IsSymlocal", .cUint)]

/-- Modelled from the spec: upstream `lt_dlinfo`, whose header is not among the sources:
`char *filename; char *name; int ref_count;` followed by the three one-bit bit-fields
`is_resident`, `is_symglobal`, `is_symlocal` of type `unsigned int`, which share a single
`unsigned int` storage unit. -/
def lt_dlinfo : List (String × GoType) :=
  [("filename", .pointer), ("name", .pointer), ("ref_count", .cInt),
   ("is_resident:1, is_symglobal:1, is_symlocal:1", .cUint)]

/-- Every `func` declaration of package `libtool` (`ltdl.go`, then `lt_dlloader.go`), in
file order, each with the C symbols named by the link directives directly above it. -/
def link_decls : List (String × List String) :=
  [("LtDlinit", ["lt_dlinit"]), ("LtDlexit", ["lt_dlexit"]),
   ("LtDladdsearchdir", ["lt_dladdsearchdir"]),
   ("LtDlinsertsearchdir", ["lt_dlinsertsearchdir"]),
   ("LtDlsetsearchpath", ["lt_dlsetsearchpath"]), ("LtDlgetsearchpath", ["lt_dlgetsearchpath"]),
   ("LtDlforeachfile", ["lt_dlforeachfile"]), ("LtDladviseInit", ["lt_dladvise_init"]),
   ("LtDladviseDestroy", ["lt_dladvise_destroy"]), ("LtDladviseExt", ["lt_dladvise_ext"]),
   ("LtDladviseResident", ["lt_dladvise_resident"]), ("LtDladviseLocal", ["lt_dladvise_local"]),
   ("LtDladviseGlobal", ["lt_dladvise_global"]), ("LtDladvisePreload", ["lt_dladvise_preload"]),
   ("LtDlopen", ["lt_dlopen"]), ("LtDlopenext", ["lt_dlopenext"]),
   ("LtDlopenadvise", ["lt_dlopenadvise"]), ("LtDlsym", ["lt_dlsym"]),
   ("LtDlerror", ["lt_dlerror"]), ("LtDlclose", ["lt_dlclose"]),
   ("(*LtDlsymlist).LtDlpreload", ["lt_dlpreload"]),
   ("(*LtDlsymlist).LtDlpreloadDefault", ["lt_dlpreload_default"]),
   ("LtDlpreloadOpen", ["lt_dlpreload_open"]),
   ("LtDlinterfaceRegister", ["lt_dlinterface_register"]),
   ("LtDlinterfaceFree", ["lt_dlinterface_free"]),
   ("LtDlcallerSetData", ["lt_dlcaller_set_data"]),
   ("LtDlcallerGetData", ["lt_dlcaller_get_data"]), ("LtDlgetinfo", ["lt_dlgetinfo"]),
   ("LtDlhandleIterate", ["lt_dlhandle_iterate"]), ("LtDlhandleFetch", ["lt_dlhandle_fetch"]),
   ("LtDlhandleMap", ["lt_dlhandle_map"]), ("LtDlmakeresident", ["lt_dlmakeresident"]),
   ("LtDlisresident", ["lt_dlisresident"]),
   ("(*LtDlvtable).LtDlloaderAdd", ["lt_dlloader_add"]),
   ("LtDlloaderNext", ["lt_dlloader_next"]), ("LtDlloaderRemove", ["lt_dlloader_remove"]),
   ("LtDlloaderFind", ["lt_dlloader_find"]), ("LtDlloaderGet", ["lt_dlloader_get"])]

end libtool

namespace lua

open abi

def OK : Int := 0
def YIELD : Int := 1
def ERRRUN : Int := 2
def ERRSYNTAX : Int := 3
def ERRMEM : Int := 4
def ERRERR : Int := 5

def NIL : Int := 0
def BOOLEAN : Int := 1
def LIGHTUSERDATA : Int := 2
def NUMBER : Int := 3
def STRING : Int := 4
def TABLE : Int := 5
def FUNCTION : Int := 6
def USERDATA : Int := 7
def THREAD : Int := 8
def NUMTYPES : Int := 9

/-- The thread-status constants of `lua.go` (lines 14-19), in declaration order. -/
def status_consts : List (String × Int) :=
  [("OK", OK), ("YIELD", YIELD), ("ERRRUN", ERRRUN), ("ERRSYNTAX", ERRSYNTAX),
   ("ERRMEM", ERRMEM), ("ERRERR", ERRERR)]

/-- The basic-type tag constants of `lua.go` (lines 20-28), in declaration order. -/
def type_tags : List (String × Int) :=
  [("NIL", NIL), ("BOOLEAN", BOOLEAN), ("LIGHTUSERDATA", LIGHTUSERDATA),
   ("NUMBER", NUMBER), ("STRING", STRING), ("TABLE", TABLE), ("FUNCTION", FUNCTION),
   ("USERDATA", USERDATA), ("THREAD", THREAD)]

/-- Whether a constant's name marks it as an error code (`ERR...`). -/
def isErrName (name : String) : Bool :=
  "ERR".toList.isPrefixOf name.toList

/-- Go: `const IDSIZE = 60` (`luaconf.go`). -/
def IDSIZE : Int := 60

/-- Go: `type Number float64`. -/
def Number : GoType := .float64

/-- Field list of `type Debug struct` (`lua.go`), in declaration order. -/
def Debug : List (String × GoType) :=
  [("Event", .cInt), ("Name", .pointer), ("Namewhat", .pointer), ("What", .pointer),
   ("Source", .pointer), ("Srclen", .uintptr),
   ("Currentline", .cInt), ("Linedefined", .cInt), ("Lastlinedefined", .cInt),
   ("Nups", .int8), ("Nparams", .int8), ("Isvararg", .int8), ("Istailcall", .int8),
   ("Ftransfer", .uint16), ("Ntransfer", .uint16),
   ("ShortSrc", .array 60 .int8), ("ICi", .pointer)]

/-- Field list of `type Buffer struct` (`lauxlib.go`), in declaration order; `Init` is the
anonymous struct `struct { B [1024]int8 }`. -/
def Buffer : List (String × GoType) :=
  [("B", .pointer), ("Size", .uintptr), ("N", .uintptr), ("L", .pointer),
   ("Init", .struct [("B", .array 1024 .int8)])]

/-- Every `func` declaration of package `lua` (`lua.go`, `lauxlib.go`, `lualib.go`; there is
none in `luaconf.go`), in file order, each with the C symbols named by the link directives
directly above it. -/
def link_decls : List (String × List String) :=
  [("Newstate", ["lua_newstate"]), ("(*State).Close", ["lua_close"]),
   ("(*State).Newthread", ["lua_newthread"]), ("(*State).Closethread", ["lua_closethread"]),
   ("(*State).Resetthread", ["lua_resetthread"]), ("(*State).Atpanic", ["lua_atpanic"]),
   ("(*State).Version", ["lua_version"]), ("(*State).Absindex", ["lua_absindex"]),
   ("(*State).Gettop", ["lua_gettop"]), ("(*State).Settop", ["lua_settop"]),
   ("(*State).Pushvalue", ["lua_pushvalue"]), ("(*State).Rotate", ["lua_rotate"]),
   ("(*State).Copy", ["lua_copy"]), ("(*State).Checkstack", ["lua_checkstack"]),
   ("(*State).Xmove", ["lua_xmove"]), ("(*State).Isnumber", ["lua_isnumber"]),
   ("(*State).Isstring", ["lua_isstring"]), ("(*State).Iscfunction", ["lua_iscfunction"]),
   ("(*State).Isinteger", ["lua_isinteger"]), ("(*State).Isuserdata", ["lua_isuserdata"]),
   ("(*State).Type", ["lua_type"]), ("(*State).Typename", ["lua_typename"]),
   ("(*State).Tonumberx", ["lua_tonumberx"]), ("(*State).Tointegerx", ["lua_tointegerx"]),
   ("(*State).Toboolean", ["lua_toboolean"]), ("(*State).Tolstring", ["lua_tolstring"]),
   ("(*State).Rawlen", ["lua_rawlen"]), ("(*State).Tocfunction", ["lua_tocfunction"]),
   ("(*State).Touserdata", ["lua_touserdata"]), ("(*State).Tothread", ["lua_tothread"]),
   ("(*State).Topointer", ["lua_topointer"]), ("(*State).Arith", ["lua_arith"]),
   ("(*State).Rawequal", ["lua_rawequal"]), ("(*State).Compare", ["lua_compare"]),
   ("(*State).Pushnil", ["lua_pushnil"]), ("(*State).Pushnumber", ["lua_pushnumber"]),
   ("(*State).Pushinteger", ["lua_pushinteger"]), ("(*State).Pushlstring", ["lua_pushlstring"]),
   ("(*State).Pushstring", ["lua_pushstring"]), ("(*State).Pushvfstring", ["lua_pushvfstring"]),
   ("(*State).Pushfstring", ["lua_pushfstring"]),
   ("(*State).Pushcclosure", ["lua_pushcclosure"]),
   ("(*State).Pushboolean", ["lua_pushboolean"]),
   ("(*State).Pushlightuserdata", ["lua_pushlightuserdata"]),
   ("(*State).Pushthread", ["lua_pushthread"]), ("(*State).Getglobal", ["lua_getglobal"]),
   ("(*State).Gettable", ["lua_gettable"]), ("(*State).Getfield", ["lua_getfield"]),
   ("(*State).Geti", ["lua_geti"]), ("(*State).Rawget", ["lua_rawget"]),
   ("(*State).Rawgeti", ["lua_rawgeti"]), ("(*State).Rawgetp", ["lua_rawgetp"]),
   ("(*State).Createtable", ["lua_createtable"]),
   ("(*State).Newuserdatauv", ["lua_newuserdatauv"]),
   ("(*State).Getmetatable", ["lua_getmetatable"]),
   ("(*State).Getiuservalue", ["lua_getiuservalue"]), ("(*State).Setglobal", ["lua_setglobal"]),
   ("(*State).Settable", ["lua_settable"]), ("(*State).Setfield", ["lua_setfield"]),
   ("(*State).Seti", ["lua_seti"]), ("(*State).Rawset", ["lua_rawset"]),
   ("(*State).Rawseti", ["lua_rawseti"]), ("(*State).Rawsetp", ["lua_rawsetp"]),
   ("(*State).Setmetatable", ["lua_setmetatable"]),
   ("(*State).Setiuservalue", ["lua_setiuservalue"]), ("(*State).Callk", ["lua_callk"]),
   ("(*State).Pcallk", ["lua_pcallk"]), ("(*State).Load", ["lua_load"]),
   ("(*State).Dump", ["lua_dump"]), ("(*State).Yieldk", ["lua_yieldk"]),
   ("(*State).Resume", ["lua_resume"]), ("(*State).Status", ["lua_status"]),
   ("(*State).Isyieldable", ["lua_isyieldable"]), ("(*State).Setwarnf", ["lua_setwarnf"]),
   ("(*State).Warning", ["lua_warning"]), ("(*State).Gc", ["lua_gc"]),
   ("(*State).Error", ["lua_error"]), ("(*State).Next", ["lua_next"]),
   ("(*State).Concat", ["lua_concat"]), ("(*State).Len", ["lua_len"]),
   ("(*State).Stringtonumber", ["lua_stringtonumber"]),
   ("(*State).Getallocf", ["lua_getallocf"]), ("(*State).Setallocf", ["lua_setallocf"]),
   ("(*State).Toclose", ["lua_toclose"]), ("(*State).Closeslot", ["lua_closeslot"]),
   ("(*State).Getstack", ["lua_getstack"]), ("(*State).Getinfo", ["lua_getinfo"]),
   ("(*State).Getlocal", ["lua_getlocal"]), ("(*State).Setlocal", ["lua_setlocal"]),
   ("(*State).Getupvalue", ["lua_getupvalue"]), ("(*State).Setupvalue", ["lua_setupvalue"]),
   ("(*State).Upvalueid", ["lua_upvalueid"]), ("(*State).Upvaluejoin", ["lua_upvaluejoin"]),
   ("(*State).Sethook", ["lua_sethook"]), ("(*State).Gethook", ["lua_gethook"]),
   ("(*State).Gethookmask", ["lua_gethookmask"]),
   ("(*State).Gethookcount", ["lua_gethookcount"]),
   ("(*State).Setcstacklimit", ["lua_setcstacklimit"]),
   ("(*State).Checkversion_", ["luaL_checkversion_"]),
   ("(*State).Getmetafield", ["luaL_getmetafield"]), ("(*State).Callmeta", ["luaL_callmeta"]),
   ("(*State).Tolstring__1", ["luaL_tolstring"]), ("(*State).Argerror", ["luaL_argerror"]),
   ("(*State).Typeerror", ["luaL_typeerror"]), ("(*State).Checklstring", ["luaL_checklstring"]),
   ("(*State).Optlstring", ["luaL_optlstring"]), ("(*State).Checknumber", ["luaL_checknumber"]),
   ("(*State).Optnumber", ["luaL_optnumber"]), ("(*State).Checkinteger", ["luaL_checkinteger"]),
   ("(*State).Optinteger", ["luaL_optinteger"]),
   ("(*State).Checkstack__1", ["luaL_checkstack"]), ("(*State).Checktype", ["luaL_checktype"]),
   ("(*State).Checkany", ["luaL_checkany"]), ("(*State).Newmetatable", ["luaL_newmetatable"]),
   ("(*State).Setmetatable__1", ["luaL_setmetatable"]),
   ("(*State).Testudata", ["luaL_testudata"]), ("(*State).Checkudata", ["luaL_checkudata"]),
   ("(*State).Where", ["luaL_where"]), ("(*State).Error__1", ["luaL_error"]),
   ("(*State).Checkoption", ["luaL_checkoption"]), ("(*State).Fileresult", ["luaL_fileresult"]),
   ("(*State).Execresult", ["luaL_execresult"]), ("(*State).Ref", ["luaL_ref"]),
   ("(*State).Unref", ["luaL_unref"]), ("(*State).Loadfilex", ["luaL_loadfilex"]),
   ("(*State).Loadbufferx", ["luaL_loadbufferx"]), ("(*State).Loadstring", ["luaL_loadstring"]),
   ("Newstate__1", ["luaL_newstate"]), ("(*State).Len__1", ["luaL_len"]),
   ("(*Buffer).Addgsub", ["luaL_addgsub"]), ("(*State).Gsub", ["luaL_gsub"]),
   ("(*State).Setfuncs", ["luaL_setfuncs"]), ("(*State).Getsubtable", ["luaL_getsubtable"]),
   ("(*State).Traceback", ["luaL_traceback"]), ("(*State).Requiref", ["luaL_requiref"]),
   ("(*State).Buffinit", ["luaL_buffinit"]), ("(*Buffer).Prepbuffsize", ["luaL_prepbuffsize"]),
   ("(*Buffer).Addlstring", ["luaL_addlstring"]), ("(*Buffer).Addstring", ["luaL_addstring"]),
   ("(*Buffer).Addvalue", ["luaL_addvalue"]), ("(*Buffer).Pushresult", ["luaL_pushresult"]),
   ("(*Buffer).Pushresultsize", ["luaL_pushresultsize"]),
   ("(*State).Buffinitsize", ["luaL_buffinitsize"]), ("(*State).Base", ["luaopen_base"]),
   ("(*State).Coroutine", ["luaopen_coroutine"]), ("(*State).Table", ["luaopen_table"]),
   ("(*State).Io", ["luaopen_io"]), ("(*State).Os", ["luaopen_os"]),
   ("(*State).String", ["luaopen_string"]), ("(*State).Utf8", ["luaopen_utf8"]),
   ("(*State).Math", ["luaopen_math"]), ("(*State).Debug", ["luaopen_debug"]),
   ("(*State).Package", ["luaopen_package"]), ("(*State).Openlibs", ["luaL_openlibs"])]

end lua

namespace text

/-- Value of a decimal digit character; `none` for any other character. -/
def digitVal (c : Char) : Option Nat :=
  if 48 ≤ c.toNat ∧ c.toNat ≤ 57 then some (c.toNat - 48) else none

/-- Decimal reading of the remaining characters, `acc` being the value read so far. -/
def readDecimalFrom (acc : Nat) : List Char → Option Nat
  | [] => some acc
  | c :: cs => (digitVal c).bind (fun d => readDecimalFrom (10 * acc + d) cs)

/-- The number a non-empty string of decimal digits denotes. -/
def readDecimal (s : String) : Option Nat :=
  match s.toList with
  | [] => none
  | cs => readDecimalFrom 0 cs

/-- Split a character list at every occurrence of `sep` (the separators are dropped). -/
def splitAtChar (sep : Char) : List Char → List (List Char)
  | [] => [[]]
  | c :: cs =>
    if c = sep then [] :: splitAtChar sep cs
    else
      match splitAtChar sep cs with
      | [] => [[c]]
      | part :: parts => (c :: part) :: parts

/-- Upper-case the first character. -/
def upperFirst : List Char → List Char
  | [] => []
  | c :: cs => c.toUpper :: cs

/-- CamelCase of a C symbol: split at `_`, upper-case the first letter of each part,
concatenate. -/
def camelCase (sym : String) : String :=
  String.mk ((splitAtChar '_' sym.toList).map upperFirst).flatten

/-- Name of a declaration without its receiver: the text after the last `.`. -/
def declName (decl : String) : String :=
  String.mk ((splitAtChar '.' decl.toList).getLastD [])

/-- The last character of a string, read as a decimal digit. -/
def lastDigit (s : String) : Option Nat :=
  (s.toList.getLast?).bind digitVal

/-- The string without its first `n` characters. -/
def dropChars (n : Nat) (s : String) : String :=
  String.mk (s.toList.drop n)

end text

namespace liblzma

def LZMA_VERSION_MAJOR : Int := 5
def LZMA_VERSION_MINOR : Int := 4
def LZMA_VERSION_PATCH : Int := 5
def LZMA_VERSION_COMMIT : String := ""
def LZMA_VERSION_STABILITY_ALPHA : Int := 0
def LZMA_VERSION_STABILITY_BETA : Int := 1
def LZMA_VERSION_STABILITY_STABLE : Int := 2
def LZMA_VERSION_STABILITY_STRING : String := ""
def LZMA_VLI_BYTES_MAX : Int := 9
def LZMA_BLOCK_HEADER_SIZE_MIN : Int := 8
def LZMA_BLOCK_HEADER_SIZE_MAX : Int := 1024

/-- Modelled from the spec: upstream's `LZMA_VERSION` macro, an expression macro that has
no Go constant: `major * 10000000 + minor * 10000 + patch * 10 + stability`. It is the
value the doc comment of `LzmaVersionNumber` says the function returns. -/
def LZMA_VERSION (major minor patch stability : Int) : Int :=
  major * 10000000 + minor * 10000 + patch * 10 + stability

/-- Modelled from the spec: the stability a stability string stands for; the empty string
is the one upstream uses for a stable release. -/
def stabilityOfString (s : String) : Option Int :=
  if s = "" then some LZMA_VERSION_STABILITY_STABLE else none

/-- Modelled from the spec: upstream's macro `lzma_block_header_size_decode(b)`, which the
doc comment of the Block Header decoder names and which has no Go declaration: the header
size that the size byte `b` encodes, `(b + 1) * 4`. -/
def lzma_block_header_size_decode (b : Nat) : Nat :=
  (b + 1) * 4

/-- The validity rule in the doc comment of `LzmaBlockCompressedSize`: "block->header_size
must be a multiple of four and between 8 and 1024 inclusive". -/
def validHeaderSize (n : Nat) : Bool :=
  n % 4 == 0 && 8 ≤ n && n ≤ 1024

/-- Modelled from the spec: `LZMA_VLI_MAX`, the largest valid variable-length integer,
`UINT64_MAX / 2` = 2^63 - 1; an expression macro without a Go constant. -/
def LZMA_VLI_MAX : Nat :=
  (2 ^ 64 - 1) / 2

/-- Modelled from the spec: the number of bytes that hold `v` with 7 payload bits per
byte. -/
def vliBytes (v : Nat) : Nat :=
  if v < 128 then 1 else 1 + vliBytes (v / 128)
decreasing_by omega

/-- Go: `type LzmaMatchFinder c.Int`. -/
abbrev LzmaMatchFinder := Int

def LZMAMFHC3 : LzmaMatchFinder := 3
def LZMAMFHC4 : LzmaMatchFinder := 4
def LZMAMFBT2 : LzmaMatchFinder := 18
def LZMAMFBT3 : LzmaMatchFinder := 19
def LZMAMFBT4 : LzmaMatchFinder := 20

/-- The `const ( ... )` block of type `LzmaMatchFinder`, in declaration order. -/
def LzmaMatchFinder_consts : List (String × LzmaMatchFinder) :=
  [("LZMAMFHC3", LZMAMFHC3), ("LZMAMFHC4", LZMAMFHC4), ("LZMAMFBT2", LZMAMFBT2),
   ("LZMAMFBT3", LZMAMFBT3), ("LZMAMFBT4", LZMAMFBT4)]

/-- Whether the identifier names a binary-tree (BT) match finder. -/
def isBTName (name : String) : Bool :=
  "LZMAMFBT".toList.isPrefixOf name.toList

/-- Go: `type LzmaMode c.Int`. -/
abbrev LzmaMode := Int

def LZMAMODEFAST : LzmaMode := 1
def LZMAMODENORMAL : LzmaMode := 2

/-- The `const ( ... )` block of type `LzmaMode`, in declaration order. -/
def LzmaMode_consts : List (String × LzmaMode) :=
  [("LZMAMODEFAST", LZMAMODEFAST), ("LZMAMODENORMAL", LZMAMODENORMAL)]

end liblzma

namespace lua

def VERSION_MAJOR : String := "5"
def VERSION_MINOR : String := "4"
def VERSION_RELEASE : String := "7"
def VERSION_NUM : Int := 504

def GCSTOP : Int := 0
def GCRESTART : Int := 1
def GCCOLLECT : Int := 2
def GCCOUNT : Int := 3
def GCCOUNTB : Int := 4
def GCSTEP : Int := 5
def GCSETPAUSE : Int := 6
def GCSETSTEPMUL : Int := 7
def GCISRUNNING : Int := 9
def GCGEN : Int := 10
def GCINC : Int := 11

/-- The garbage-collector option constants of `lua.go` (lines 50-60), in declaration
order. -/
def gc_consts : List (String × Int) :=
  [("GCSTOP", GCSTOP), ("GCRESTART", GCRESTART), ("GCCOLLECT", GCCOLLECT),
   ("GCCOUNT", GCCOUNT), ("GCCOUNTB", GCCOUNTB), ("GCSTEP", GCSTEP),
   ("GCSETPAUSE", GCSETPAUSE), ("GCSETSTEPMUL", GCSETSTEPMUL),
   ("GCISRUNNING", GCISRUNNING), ("GCGEN", GCGEN), ("GCINC", GCINC)]

end lua

namespace abi

/-- Value read from a one-byte field of the given type whose byte in memory is `b`
(0..255): an `int8` is the two's-complement reading of the byte, a `uint8` the byte
itself. `none` for types that are not one byte wide. -/
def readByte : GoType → Nat → Option Int
  | .int8, b => some (if b < 128 then (b : Int) else (b : Int) - 256)
  | .uint8, b => some (b : Int)
  | _, _ => none

end abi

namespace lua

/-- The library-name constants of `lualib.go` (lines 8-16), in declaration order. -/
def lualib_consts : List (String × String) :=
  [("COLIBNAME", "coroutine"), ("ABLIBNAME", "table"), ("IOLIBNAME", "io"),
   ("OSLIBNAME", "os"), ("STRLIBNAME", "string"), ("UTF8LIBNAME", "utf8"),
   ("MATHLIBNAME", "math"), ("DBLIBNAME", "debug"), ("LOADLIBNAME", "package")]

/-- Modelled from the spec: the library-name macros of upstream's `lualib.h`, which is not
among the sources, with their strings. -/
def lualib_h_macros : List (String × String) :=
  [("LUA_COLIBNAME", "coroutine"), ("LUA_TABLIBNAME", "table"), ("LUA_IOLIBNAME", "io"),
   ("LUA_OSLIBNAME", "os"), ("LUA_STRLIBNAME", "string"), ("LUA_UTF8LIBNAME", "utf8"),
   ("LUA_MATHLIBNAME", "math"), ("LUA_DBLIBNAME", "debug"), ("LUA_LOADLIBNAME", "package")]

/-- The name the naming rule gives a macro: the macro without its first four characters,
`LUA_`. -/
def withoutLUA (name : String) : String :=
  text.dropChars 4 name

end lua

namespace abi

/-- Contents of the struct a receiver points to, field by field. -/
abbrev FieldValues := List (String × Nat)

/-- What a Go body hands back: nothing, the number zero, or `nil`. -/
inductive GoValue where
  | void
  | zero
  | nil
  deriving DecidableEq

/-- Result of running a body, given as the list of its statements: an empty body returns
nothing, `return 0` the number zero, `return nil` the nil pointer. Any other statement
list is outside this embedding (`none`). -/
def bodyResult : List String → Option GoValue
  | [] => some .void
  | [stmt] =>
    if stmt = "return 0" then some .zero
    else if stmt = "return nil" then some .nil
    else none
  | _ => none

/-- Running a body on the receiver contents `recv` and the arguments `args`: the receiver
contents afterwards and the value returned. None of the embedded statement forms reads or
assigns anything. -/
def runBody {σ α : Type} (body : List String) (recv : σ) (_args : α) :
    Option (σ × GoValue) :=
  (bodyResult body).map (fun v => (recv, v))

/-- Result types of the four packages whose zero value is the number 0: the integer types
written as such, and the named types `LzmaBool` (`int8`), `LzmaCheck` and `LzmaRet`
(`c.Int`), `LzmaVli` (`uint64`), `Integer` (`c.LongLong`), `Number` (`float64`) and
`Unsigned` (`c.UlongLong`). -/
def numericResultTypes : List String :=
  ["c.Int", "uint32", "uint64", "uintptr", "LzmaBool", "LzmaCheck", "LzmaRet", "LzmaVli",
   "Integer", "Number", "Unsigned"]

/-- Result types whose zero value is `nil` although they are not written `*T`:
`unsafe.Pointer` and the function types `Alloc`, `CFunction` and `Hook`. -/
def nilResultTypes : List String :=
  ["unsafe.Pointer", "Alloc", "CFunction", "Hook"]

/-- Zero value of a result type as written; `none` when the type is not classified. -/
def zeroValue (result : String) : Option GoValue :=
  if result = "" then some .void
  else if result ∈ numericResultTypes then some .zero
  else if result.toList.head? = some '*' ∨ result ∈ nilResultTypes then some .nil
  else none

/-- Whether an entry of a body table is a stub: it has no body, or its body is one of the
embedded forms and returns the zero value of the declared result type. -/
def isZeroStub (d : String × String × Option (List String)) : Bool :=
  match d.2.2 with
  | none => true
  | some body => (bodyResult body).isSome && bodyResult body == zeroValue d.2.1

end abi

namespace liblzma

/-- Every `func` declaration of package `liblzma`, in file order, with result type and body. -/
def func_bodies : List (String × String × Option (List String)) :=
  [("LzmaVersionNumber", "uint32", none), ("LzmaVersionString", "*int8", none),
   ("(*LzmaStream).LzmaCode", "LzmaRet", some ["return 0"]),
   ("(*LzmaStream).LzmaEnd", "", some []), ("(*LzmaStream).LzmaGetProgress", "", some []),
   ("(*LzmaStream).LzmaMemusage", "uint64", some ["return 0"]),
   ("(*LzmaStream).LzmaMemlimitGet", "uint64", some ["return 0"]),
   ("(*LzmaStream).LzmaMemlimitSet", "LzmaRet", some ["return 0"]),
   ("LzmaVli.LzmaVliEncode", "LzmaRet", some ["return 0"]),
   ("(*LzmaVli).LzmaVliDecode", "LzmaRet", some ["return 0"]),
   ("LzmaVli.LzmaVliSize", "uint32", some ["return 0"]),
   ("LzmaCheck.LzmaCheckIsSupported", "LzmaBool", some ["return 0"]),
   ("LzmaCheck.LzmaCheckSize", "uint32", some ["return 0"]), ("LzmaCrc32", "uint32", none),
   ("LzmaCrc64", "uint64", none),
   ("(*LzmaStream).LzmaGetCheck", "LzmaCheck", some ["return 0"]),
   ("LzmaVli.LzmaFilterEncoderIsSupported", "LzmaBool", some ["return 0"]),
   ("LzmaVli.LzmaFilterDecoderIsSupported", "LzmaBool", some ["return 0"]),
   ("(*LzmaFilter).LzmaFiltersCopy", "LzmaRet", some ["return 0"]),
   ("(*LzmaFilter).LzmaFiltersFree", "", some []),
   ("(*LzmaFilter).LzmaRawEncoderMemusage", "uint64", some ["return 0"]),
   ("(*LzmaFilter).LzmaRawDecoderMemusage", "uint64", some ["return 0"]),
   ("(*LzmaStream).LzmaRawEncoder", "LzmaRet", some ["return 0"]),
   ("(*LzmaStream).LzmaRawDecoder", "LzmaRet", some ["return 0"]),
   ("(*LzmaStream).LzmaFiltersUpdate", "LzmaRet", some ["return 0"]),
   ("(*LzmaFilter).LzmaRawBufferEncode", "LzmaRet", some ["return 0"]),
   ("(*LzmaFilter).LzmaRawBufferDecode", "LzmaRet", some ["return 0"]),
   ("LzmaPropertiesSize", "LzmaRet", none),
   ("(*LzmaFilter).LzmaPropertiesEncode", "LzmaRet", some ["return 0"]),
   ("(*LzmaFilter).LzmaPropertiesDecode", "LzmaRet", some ["return 0"]),
   ("LzmaFilterFlagsSize", "LzmaRet", none),
   ("(*LzmaFilter).LzmaFilterFlagsEncode", "LzmaRet", some ["return 0"]),
   ("(*LzmaFilter).LzmaFilterFlagsDecode", "LzmaRet", some ["return 0"]),
   ("LzmaStrToFilters", "*int8", none), ("LzmaStrFromFilters", "LzmaRet", none),
   ("LzmaStrListFilters", "LzmaRet", none),
   ("LzmaMatchFinder.LzmaMfIsSupported", "LzmaBool", some ["return 0"]),
   ("LzmaMode.LzmaModeIsSupported", "LzmaBool", some ["return 0"]),
   ("(*LzmaOptionsLzma).LzmaLzmaPreset", "LzmaBool", some ["return 0"]),
   ("LzmaEasyEncoderMemusage", "uint64", none), ("LzmaEasyDecoderMemusage", "uint64", none),
   ("(*LzmaStream).LzmaEasyEncoder", "LzmaRet", some ["return 0"]),
   ("LzmaEasyBufferEncode", "LzmaRet", none),
   ("(*LzmaStream).LzmaStreamEncoder", "LzmaRet", some ["return 0"]),
   ("(*LzmaMt).LzmaStreamEncoderMtMemusage", "uint64", some ["return 0"]),
   ("(*LzmaStream).LzmaStreamEncoderMt", "LzmaRet", some ["return 0"]),
   ("(*LzmaStream).LzmaAloneEncoder", "LzmaRet", some ["return 0"]),
   ("LzmaStreamBufferBound", "uintptr", none),
   ("(*LzmaFilter).LzmaStreamBufferEncode", "LzmaRet", some ["return 0"]),
   ("(*LzmaStream).LzmaMicrolzmaEncoder", "LzmaRet", some ["return 0"]),
   ("(*LzmaStream).LzmaStreamDecoder", "LzmaRet", some ["return 0"]),
   ("(*LzmaStream).LzmaStreamDecoderMt", "LzmaRet", some ["return 0"]),
   ("(*LzmaStream).LzmaAutoDecoder", "LzmaRet", some ["return 0"]),
   ("(*LzmaStream).LzmaAloneDecoder", "LzmaRet", some ["return 0"]),
   ("(*LzmaStream).LzmaLzipDecoder", "LzmaRet", some ["return 0"]),
   ("LzmaStreamBufferDecode", "LzmaRet", none),
   ("(*LzmaStream).LzmaMicrolzmaDecoder", "LzmaRet", some ["return 0"]),
   ("(*LzmaStreamFlags).LzmaStreamHeaderEncode", "LzmaRet", some ["return 0"]),
   ("(*LzmaStreamFlags).LzmaStreamFooterEncode", "LzmaRet", some ["return 0"]),
   ("(*LzmaStreamFlags).LzmaStreamHeaderDecode", "LzmaRet", some ["return 0"]),
   ("(*LzmaStreamFlags).LzmaStreamFooterDecode", "LzmaRet", some ["return 0"]),
   ("(*LzmaStreamFlags).LzmaStreamFlagsCompare", "LzmaRet", some ["return 0"]),
   ("(*LzmaBlock).LzmaBlockHeaderSize", "LzmaRet", some ["return 0"]),
   ("(*LzmaBlock).LzmaBlockHeaderEncode", "LzmaRet", some ["return 0"]),
   ("(*LzmaBlock).LzmaBlockHeaderDecode", "LzmaRet", some ["return 0"]),
   ("(*LzmaBlock).LzmaBlockCompressedSize", "LzmaRet", some ["return 0"]),
   ("(*LzmaBlock).LzmaBlockUnpaddedSize", "LzmaVli", some ["return 0"]),
   ("(*LzmaBlock).LzmaBlockTotalSize", "LzmaVli", some ["return 0"]),
   ("(*LzmaStream).LzmaBlockEncoder", "LzmaRet", some ["return 0"]),
   ("(*LzmaStream).LzmaBlockDecoder", "LzmaRet", some ["return 0"]),
   ("LzmaBlockBufferBound", "uintptr", none),
   ("(*LzmaBlock).LzmaBlockBufferEncode", "LzmaRet", some ["return 0"]),
   ("(*LzmaBlock).LzmaBlockUncompEncode", "LzmaRet", some ["return 0"]),
   ("(*LzmaBlock).LzmaBlockBufferDecode", "LzmaRet", some ["return 0"]),
   ("LzmaVli.LzmaIndexMemusage", "uint64", some ["return 0"]),
   ("(*LzmaIndex).LzmaIndexMemused", "uint64", some ["return 0"]),
   ("(*LzmaAllocator).LzmaIndexInit", "*LzmaIndex", some ["return nil"]),
   ("(*LzmaIndex).LzmaIndexEnd", "", some []),
   ("(*LzmaIndex).LzmaIndexAppend", "LzmaRet", some ["return 0"]),
   ("(*LzmaIndex).LzmaIndexStreamFlags", "LzmaRet", some ["return 0"]),
   ("(*LzmaIndex).LzmaIndexChecks", "uint32", some ["return 0"]),
   ("(*LzmaIndex).LzmaIndexStreamPadding", "LzmaRet", some ["return 0"]),
   ("(*LzmaIndex).LzmaIndexStreamCount", "LzmaVli", some ["return 0"]),
   ("(*LzmaIndex).LzmaIndexBlockCount", "LzmaVli", some ["return 0"]),
   ("(*LzmaIndex).LzmaIndexSize", "LzmaVli", some ["return 0"]),
   ("(*LzmaIndex).LzmaIndexStreamSize", "LzmaVli", some ["return 0"]),
   ("(*LzmaIndex).LzmaIndexTotalSize", "LzmaVli", some ["return 0"]),
   ("(*LzmaIndex).LzmaIndexFileSize", "LzmaVli", some ["return 0"]),
   ("(*LzmaIndex).LzmaIndexUncompressedSize", "LzmaVli", some ["return 0"]),
   ("(*LzmaIndexIter).LzmaIndexIterInit", "", some []),
   ("(*LzmaIndexIter).LzmaIndexIterRewind", "", some []),
   ("(*LzmaIndexIter).LzmaIndexIterNext", "LzmaBool", some ["return 0"]),
   ("(*LzmaIndexIter).LzmaIndexIterLocate", "LzmaBool", some ["return 0"]),
   ("(*LzmaIndex).LzmaIndexCat", "LzmaRet", some ["return 0"]),
   ("(*LzmaIndex).LzmaIndexDup", "*LzmaIndex", some ["return nil"]),
   ("(*LzmaStream).LzmaIndexEncoder", "LzmaRet", some ["return 0"]),
   ("(*LzmaStream).LzmaIndexDecoder", "LzmaRet", some ["return 0"]),
   ("(*LzmaIndex).LzmaIndexBufferEncode", "LzmaRet", some ["return 0"]),
   ("LzmaIndexBufferDecode", "LzmaRet", none),
   ("(*LzmaStream).LzmaFileInfoDecoder", "LzmaRet", some ["return 0"]),
   ("(*LzmaIndexHash).LzmaIndexHashInit", "*LzmaIndexHash", some ["return nil"]),
   ("(*LzmaIndexHash).LzmaIndexHashEnd", "", some []),
   ("(*LzmaIndexHash).LzmaIndexHashAppend", "LzmaRet", some ["return 0"]),
   ("(*LzmaIndexHash).LzmaIndexHashDecode", "LzmaRet", some ["return 0"]),
   ("(*LzmaIndexHash).LzmaIndexHashSize", "LzmaVli", some ["return 0"]),
   ("LzmaPhysmem", "uint64", none), ("LzmaCputhreads", "uint32", none)]

end liblzma

namespace bzip2

/-- Every `func` declaration of package `bzip2`, in file order: the declaration, its result
type as written (empty when it has none), and its body as the list of its statements
(`none` when the declaration has no body). -/
def func_bodies : List (String × String × Option (List String)) :=
  [("(*BzStream).CompressInit", "c.Int", some ["return 0"]),
   ("(*BzStream).Compress", "c.Int", some ["return 0"]),
   ("(*BzStream).CompressEnd", "c.Int", some ["return 0"]),
   ("(*BzStream).DecompressInit", "c.Int", some ["return 0"]),
   ("(*BzStream).Decompress", "c.Int", some ["return 0"]),
   ("(*BzStream).DecompressEnd", "c.Int", some ["return 0"]), ("ReadOpen", "*BZFILE", none),
   ("ReadClose", "", none), ("ReadGetUnused", "", none), ("Read", "c.Int", none),
   ("WriteOpen", "*BZFILE", none), ("Write", "", none), ("WriteClose", "", none),
   ("WriteClose64", "", none), ("BuffToBuffCompress", "c.Int", none),
   ("BuffToBuffDecompress", "c.Int", none), ("LibVersion", "*int8", none),
   ("Open", "*BZFILE", none), ("Dopen", "*BZFILE", none),
   ("(*BZFILE).Read", "c.Int", some ["return 0"]),
   ("(*BZFILE).Write", "c.Int", some ["return 0"]),
   ("(*BZFILE).Flush", "c.Int", some ["return 0"]), ("(*BZFILE).Close", "", some []),
   ("(*BZFILE).Error", "*int8", some ["return nil"])]

end bzip2

namespace libtool

/-- Every `func` declaration of package `libtool`, in file order, with result type and body. -/
def func_bodies : List (String × String × Option (List String)) :=
  [("LtDlinit", "c.Int", none), ("LtDlexit", "c.Int", none),
   ("LtDladdsearchdir", "c.Int", none), ("LtDlinsertsearchdir", "c.Int", none),
   ("LtDlsetsearchpath", "c.Int", none), ("LtDlgetsearchpath", "*int8", none),
   ("LtDlforeachfile", "c.Int", none), ("LtDladviseInit", "c.Int", none),
   ("LtDladviseDestroy", "c.Int", none), ("LtDladviseExt", "c.Int", none),
   ("LtDladviseResident", "c.Int", none), ("LtDladviseLocal", "c.Int", none),
   ("LtDladviseGlobal", "c.Int", none), ("LtDladvisePreload", "c.Int", none),
   ("LtDlopen", "LtDlhandle", none), ("LtDlopenext", "LtDlhandle", none),
   ("LtDlopenadvise", "LtDlhandle", none), ("LtDlsym", "unsafe.Pointer", none),
   ("LtDlerror", "*int8", none), ("LtDlclose", "c.Int", none),
   ("(*LtDlsymlist).LtDlpreload", "c.Int", some ["return 0"]),
   ("(*LtDlsymlist).LtDlpreloadDefault", "c.Int", some ["return 0"]),
   ("LtDlpreloadOpen", "c.Int", none), ("LtDlinterfaceRegister", "LtDlinterfaceId", none),
   ("LtDlinterfaceFree", "", none), ("LtDlcallerSetData", "unsafe.Pointer", none),
   ("LtDlcallerGetData", "unsafe.Pointer", none), ("LtDlgetinfo", "*LtDlinfo", none),
   ("LtDlhandleIterate", "LtDlhandle", none), ("LtDlhandleFetch", "LtDlhandle", none),
   ("LtDlhandleMap", "c.Int", none), ("LtDlmakeresident", "c.Int", none),
   ("LtDlisresident", "c.Int", none),
   ("(*LtDlvtable).LtDlloaderAdd", "c.Int", some ["return 0"]),
   ("LtDlloaderNext", "LtDlloader", none), ("LtDlloaderRemove", "*LtDlvtable", none),
   ("LtDlloaderFind", "*LtDlvtable", none), ("LtDlloaderGet", "*LtDlvtable", none)]

end libtool

namespace lua

/-- Every `func` declaration of package `lua`, in file order, with result type and body. -/
def func_bodies : List (String × String × Option (List String)) :=
  [("Newstate", "*State", none), ("(*State).Close", "", some []),
   ("(*State).Newthread", "*State", some ["return nil"]),
   ("(*State).Closethread", "c.Int", some ["return 0"]),
   ("(*State).Resetthread", "c.Int", some ["return 0"]),
   ("(*State).Atpanic", "CFunction", some ["return nil"]),
   ("(*State).Version", "Number", some ["return 0"]),
   ("(*State).Absindex", "c.Int", some ["return 0"]),
   ("(*State).Gettop", "c.Int", some ["return 0"]), ("(*State).Settop", "", some []),
   ("(*State).Pushvalue", "", some []), ("(*State).Rotate", "", some []),
   ("(*State).Copy", "", some []), ("(*State).Checkstack", "c.Int", some ["return 0"]),
   ("(*State).Xmove", "", some []), ("(*State).Isnumber", "c.Int", some ["return 0"]),
   ("(*State).Isstring", "c.Int", some ["return 0"]),
   ("(*State).Iscfunction", "c.Int", some ["return 0"]),
   ("(*State).Isinteger", "c.Int", some ["return 0"]),
   ("(*State).Isuserdata", "c.Int", some ["return 0"]),
   ("(*State).Type", "c.Int", some ["return 0"]),
   ("(*State).Typename", "*int8", some ["return nil"]),
   ("(*State).Tonumberx", "Number", some ["return 0"]),
   ("(*State).Tointegerx", "Integer", some ["return 0"]),
   ("(*State).Toboolean", "c.Int", some ["return 0"]),
   ("(*State).Tolstring", "*int8", some ["return nil"]),
   ("(*State).Rawlen", "Unsigned", some ["return 0"]),
   ("(*State).Tocfunction", "CFunction", some ["return nil"]),
   ("(*State).Touserdata", "unsafe.Pointer", some ["return nil"]),
   ("(*State).Tothread", "*State", some ["return nil"]),
   ("(*State).Topointer", "unsafe.Pointer", some ["return nil"]),
   ("(*State).Arith", "", some []), ("(*State).Rawequal", "c.Int", some ["return 0"]),
   ("(*State).Compare", "c.Int", some ["return 0"]), ("(*State).Pushnil", "", some []),
   ("(*State).Pushnumber", "", some []), ("(*State).Pushinteger", "", some []),
   ("(*State).Pushlstring", "*int8", some ["return nil"]),
   ("(*State).Pushstring", "*int8", some ["return nil"]),
   ("(*State).Pushvfstring", "*int8", some ["return nil"]),
   ("(*State).Pushfstring", "*int8", some ["return nil"]),
   ("(*State).Pushcclosure", "", some []), ("(*State).Pushboolean", "", some []),
   ("(*State).Pushlightuserdata", "", some []),
   ("(*State).Pushthread", "c.Int", some ["return 0"]),
   ("(*State).Getglobal", "c.Int", some ["return 0"]),
   ("(*State).Gettable", "c.Int", some ["return 0"]),
   ("(*State).Getfield", "c.Int", some ["return 0"]),
   ("(*State).Geti", "c.Int", some ["return 0"]),
   ("(*State).Rawget", "c.Int", some ["return 0"]),
   ("(*State).Rawgeti", "c.Int", some ["return 0"]),
   ("(*State).Rawgetp", "c.Int", some ["return 0"]), ("(*State).Createtable", "", some []),
   ("(*State).Newuserdatauv", "unsafe.Pointer", some ["return nil"]),
   ("(*State).Getmetatable", "c.Int", some ["return 0"]),
   ("(*State).Getiuservalue", "c.Int", some ["return 0"]), ("(*State).Setglobal", "", some []),
   ("(*State).Settable", "", some []), ("(*State).Setfield", "", some []),
   ("(*State).Seti", "", some []), ("(*State).Rawset", "", some []),
   ("(*State).Rawseti", "", some []), ("(*State).Rawsetp", "", some []),
   ("(*State).Setmetatable", "c.Int", some ["return 0"]),
   ("(*State).Setiuservalue", "c.Int", some ["return 0"]), ("(*State).Callk", "", some []),
   ("(*State).Pcallk", "c.Int", some ["return 0"]),
   ("(*State).Load", "c.Int", some ["return 0"]), ("(*State).Dump", "c.Int", some ["return 0"]),
   ("(*State).Yieldk", "c.Int", some ["return 0"]),
   ("(*State).Resume", "c.Int", some ["return 0"]),
   ("(*State).Status", "c.Int", some ["return 0"]),
   ("(*State).Isyieldable", "c.Int", some ["return 0"]), ("(*State).Setwarnf", "", some []),
   ("(*State).Warning", "", some []), ("(*State).Gc", "c.Int", some ["return 0"]),
   ("(*State).Error", "c.Int", some ["return 0"]),
   ("(*State).Next", "c.Int", some ["return 0"]), ("(*State).Concat", "", some []),
   ("(*State).Len", "", some []), ("(*State).Stringtonumber", "uintptr", some ["return 0"]),
   ("(*State).Getallocf", "Alloc", some ["return nil"]), ("(*State).Setallocf", "", some []),
   ("(*State).Toclose", "", some []), ("(*State).Closeslot", "", some []),
   ("(*State).Getstack", "c.Int", some ["return 0"]),
   ("(*State).Getinfo", "c.Int", some ["return 0"]),
   ("(*State).Getlocal", "*int8", some ["return nil"]),
   ("(*State).Setlocal", "*int8", some ["return nil"]),
   ("(*State).Getupvalue", "*int8", some ["return nil"]),
   ("(*State).Setupvalue", "*int8", some ["return nil"]),
   ("(*State).Upvalueid", "unsafe.Pointer", some ["return nil"]),
   ("(*State).Upvaluejoin", "", some []), ("(*State).Sethook", "", some []),
   ("(*State).Gethook", "Hook", some ["return nil"]),
   ("(*State).Gethookmask", "c.Int", some ["return 0"]),
   ("(*State).Gethookcount", "c.Int", some ["return 0"]),
   ("(*State).Setcstacklimit", "c.Int", some ["return 0"]),
   ("(*State).Checkversion_", "", some []),
   ("(*State).Getmetafield", "c.Int", some ["return 0"]),
   ("(*State).Callmeta", "c.Int", some ["return 0"]),
   ("(*State).Tolstring__1", "*int8", some ["return nil"]),
   ("(*State).Argerror", "c.Int", some ["return 0"]),
   ("(*State).Typeerror", "c.Int", some ["return 0"]),
   ("(*State).Checklstring", "*int8", some ["return nil"]),
   ("(*State).Optlstring", "*int8", some ["return nil"]),
   ("(*State).Checknumber", "Number", some ["return 0"]),
   ("(*State).Optnumber", "Number", some ["return 0"]),
   ("(*State).Checkinteger", "Integer", some ["return 0"]),
   ("(*State).Optinteger", "Integer", some ["return 0"]),
   ("(*State).Checkstack__1", "", some []), ("(*State).Checktype", "", some []),
   ("(*State).Checkany", "", some []), ("(*State).Newmetatable", "c.Int", some ["return 0"]),
   ("(*State).Setmetatable__1", "", some []),
   ("(*State).Testudata", "unsafe.Pointer", some ["return nil"]),
   ("(*State).Checkudata", "unsafe.Pointer", some ["return nil"]),
   ("(*State).Where", "", some []), ("(*State).Error__1", "c.Int", some ["return 0"]),
   ("(*State).Checkoption", "c.Int", some ["return 0"]),
   ("(*State).Fileresult", "c.Int", some ["return 0"]),
   ("(*State).Execresult", "c.Int", some ["return 0"]),
   ("(*State).Ref", "c.Int", some ["return 0"]), ("(*State).Unref", "", some []),
   ("(*State).Loadfilex", "c.Int", some ["return 0"]),
   ("(*State).Loadbufferx", "c.Int", some ["return 0"]),
   ("(*State).Loadstring", "c.Int", some ["return 0"]), ("Newstate__1", "*State", none),
   ("(*State).Len__1", "Integer", some ["return 0"]), ("(*Buffer).Addgsub", "", some []),
   ("(*State).Gsub", "*int8", some ["return nil"]), ("(*State).Setfuncs", "", some []),
   ("(*State).Getsubtable", "c.Int", some ["return 0"]), ("(*State).Traceback", "", some []),
   ("(*State).Requiref", "", some []), ("(*State).Buffinit", "", some []),
   ("(*Buffer).Prepbuffsize", "*int8", some ["return nil"]),
   ("(*Buffer).Addlstring", "", some []), ("(*Buffer).Addstring", "", some []),
   ("(*Buffer).Addvalue", "", some []), ("(*Buffer).Pushresult", "", some []),
   ("(*Buffer).Pushresultsize", "", some []),
   ("(*State).Buffinitsize", "*int8", some ["return nil"]),
   ("(*State).Base", "c.Int", some ["return 0"]),
   ("(*State).Coroutine", "c.Int", some ["return 0"]),
   ("(*State).Table", "c.Int", some ["return 0"]), ("(*State).Io", "c.Int", some ["return 0"]),
   ("(*State).Os", "c.Int", some ["return 0"]), ("(*State).String", "c.Int", some ["return 0"]),
   ("(*State).Utf8", "c.Int", some ["return 0"]), ("(*State).Math", "c.Int", some ["return 0"]),
   ("(*State).Debug", "c.Int", some ["return 0"]),
   ("(*State).Package", "c.Int", some ["return 0"]), ("(*State).Openlibs", "", some [])]

end lua

namespace liblzma

open abi

/-- Go: `func (recv_ *LzmaStream) LzmaCode(action LzmaAction) LzmaRet { return 0 }`. The
stream the receiver points to is passed in and handed back with the result. -/
def LzmaCode (recv_ : FieldValues) (_action : LzmaAction) : FieldValues × LzmaRet :=
  (recv_, 0)

end liblzma

namespace bzip2

open abi

/-- Go: `func (recv_ *BzStream) Compress(action c.Int) c.Int { return 0 }`. The stream the
receiver points to is passed in and handed back with the result. -/
def Compress (recv_ : FieldValues) (_action : Int) : FieldValues × Int :=
  (recv_, 0)

end bzip2

/-! ## Theorems -/

namespace liblzma

open abi

/-- C1: every `LzmaRet` constant has the value of the matching `lzma_ret` enumerator of
liblzma 5.4.5 (0..12 for the public codes, 101..108 for the reserved internal block); the
21 values are pairwise distinct and `LZMAOK` is the only constant equal to zero. -/
theorem LzmaRet_values_match_upstream :
    LzmaRet_consts =
      [("LZMAOK", 0), ("LZMASTREAMEND", 1), ("LZMANOCHECK", 2), ("LZMAUNSUPPORTEDCHECK", 3),
       ("LZMAGETCHECK", 4), ("LZMAMEMERROR", 5), ("LZMAMEMLIMITERROR", 6),
       ("LZMAFORMATERROR", 7), ("LZMAOPTIONSERROR", 8), ("LZMADATAERROR", 9),
       ("LZMABUFERROR", 10), ("LZMAPROGERROR", 11), ("LZMASEEKNEEDED", 12),
       ("LZMARETINTERNAL1", 101), ("LZMARETINTERNAL2", 102), ("LZMARETINTERNAL3", 103),
       ("LZMARETINTERNAL4", 104), ("LZMARETINTERNAL5", 105), ("LZMARETINTERNAL6", 106),
       ("LZMARETINTERNAL7", 107), ("LZMARETINTERNAL8", 108)] ∧
    LzmaRet_consts.length = 21 ∧
    (LzmaRet_consts.map Prod.snd).Nodup ∧
    (∀ p ∈ LzmaRet_consts, p.2 = 0 ↔ p.1 = "LZMAOK") := by
  refine ⟨rfl, rfl, by decide, by decide⟩

/-- C2: every `LzmaAction` constant has the value of the upstream `lzma_action` enumerator
(`LZMARUN` 0, `LZMASYNCFLUSH` 1, `LZMAFULLFLUSH` 2, `LZMAFINISH` 3, `LZMAFULLBARRIER` 4); the
five values are pairwise distinct and are exactly the integers 0..4, although
`LZMAFULLBARRIER` is declared before `LZMAFINISH`. -/
theorem LzmaAction_values_match_upstream :
    (LZMARUN = 0 ∧ LZMASYNCFLUSH = 1 ∧ LZMAFULLFLUSH = 2 ∧ LZMAFINISH = 3 ∧
      LZMAFULLBARRIER = 4) ∧
    LzmaAction_consts.map Prod.fst =
      ["LZMARUN", "LZMASYNCFLUSH", "LZMAFULLFLUSH", "LZMAFULLBARRIER", "LZMAFINISH"] ∧
    LzmaAction_consts.map Prod.snd = [0, 1, 2, 4, 3] ∧
    (LzmaAction_consts.map Prod.snd).Nodup ∧
    (∀ v : Int, v ∈ LzmaAction_consts.map Prod.snd ↔ 0 ≤ v ∧ v ≤ 4) := by
  refine ⟨by decide, rfl, rfl, by decide, ?_⟩
  intro v
  simp only [LzmaAction_consts, LZMARUN, LZMASYNCFLUSH, LZMAFULLFLUSH, LZMAFULLBARRIER,
    LZMAFINISH, List.map, List.mem_cons, List.mem_singleton, List.not_mem_nil, or_false]
  omega

end liblzma

namespace bzip2

/-- C3: the bzip2 action parameter has exactly three constants, `BZ_RUN` = 0, `BZ_FLUSH` = 1
and `BZ_FINISH` = 2, pairwise distinct; the non-error status constants are `BZ_OK` = 0,
`BZ_RUN_OK` = 1, `BZ_FLUSH_OK` = 2, `BZ_FINISH_OK` = 3 and `BZ_STREAM_END` = 4, pairwise
distinct; `BZ_MAX_UNUSED` = 5000. These are the values of `bzlib.h`. -/
theorem action_and_status_values_match_bzlib_h :
    action_consts = [("BZ_RUN", 0), ("BZ_FLUSH", 1), ("BZ_FINISH", 2)] ∧
    action_consts.length = 3 ∧
    (action_consts.map Prod.snd).Nodup ∧
    status_consts =
      [("BZ_OK", 0), ("BZ_RUN_OK", 1), ("BZ_FLUSH_OK", 2), ("BZ_FINISH_OK", 3),
       ("BZ_STREAM_END", 4)] ∧
    (status_consts.map Prod.snd).Nodup ∧
    BZ_MAX_UNUSED = 5000 ∧
    consts = action_consts ++ status_consts ++ [("BZ_MAX_UNUSED", BZ_MAX_UNUSED)] := by
  refine ⟨rfl, rfl, by decide, rfl, by decide, rfl, rfl⟩

/-- C4, as stated, fails: `bzlib.h` defines the status code `BZ_SEQUENCE_ERROR` = -1, and
package `bzip2` declares no constant with the value -1; so not every status code of the
header has a constant of its value in the package. -/
theorem error_code_without_constant :
    ("BZ_SEQUENCE_ERROR", (-1 : Int)) ∈ bzlib_h_status_codes ∧
    declaresValue (-1) = false ∧
    ¬ (∀ c ∈ bzlib_h_status_codes, declaresValue c.2 = true) := by
  refine ⟨by decide, by decide, by decide⟩

/-- C4, amended: every status code of `bzlib.h` with a non-negative value (`BZ_OK` 0,
`BZ_RUN_OK` 1, `BZ_FLUSH_OK` 2, `BZ_FINISH_OK` 3, `BZ_STREAM_END` 4) is declared by package
`bzip2` under the header's name with the header's value; for none of the negative error
codes (`BZ_SEQUENCE_ERROR` -1 .. `BZ_CONFIG_ERROR` -9) does the package declare a constant
of that value, as every constant of the package is non-negative. -/
theorem status_code_declared_iff_nonneg :
    (∀ c ∈ bzlib_h_status_codes, 0 ≤ c.2 → c ∈ consts) ∧
    (∀ c ∈ bzlib_h_status_codes, c.2 < 0 → declaresValue c.2 = false) ∧
    (bzlib_h_status_codes.filter (fun c => decide (0 ≤ c.2))) = status_consts ∧
    (∀ d ∈ consts, 0 ≤ d.2) := by
  refine ⟨by decide, by decide, by decide, by decide⟩

/-- Instance of the amended C4 at `BZ_STREAM_END` (declared) and `BZ_CONFIG_ERROR` (not). -/
theorem status_code_declared_iff_nonneg_witness :
    ("BZ_STREAM_END", (4 : Int)) ∈ consts ∧ declaresValue (-9) = false :=
  ⟨status_code_declared_iff_nonneg.1 ("BZ_STREAM_END", 4) (by decide) (by decide),
   status_code_declared_iff_nonneg.2.1 ("BZ_CONFIG_ERROR", -9) (by decide) (by decide)⟩

end bzip2

namespace lua

/-- C5: the thread-status constants have Lua 5.4's header values `OK` = 0, `YIELD` = 1,
`ERRRUN` = 2, `ERRSYNTAX` = 3, `ERRMEM` = 4, `ERRERR` = 5; they are pairwise distinct, `OK`
is the only one equal to zero, and every error code (`ERR...`) is greater than `YIELD`. -/
theorem status_values_match_lua_h :
    status_consts =
      [("OK", 0), ("YIELD", 1), ("ERRRUN", 2), ("ERRSYNTAX", 3), ("ERRMEM", 4),
       ("ERRERR", 5)] ∧
    (status_consts.map Prod.snd).Nodup ∧
    (∀ p ∈ status_consts, p.2 = 0 ↔ p.1 = "OK") ∧
    (status_consts.filter (fun p => isErrName p.1)).map Prod.fst =
      ["ERRRUN", "ERRSYNTAX", "ERRMEM", "ERRERR"] ∧
    (∀ p ∈ status_consts, isErrName p.1 = true → YIELD < p.2) := by
  refine ⟨rfl, by decide, by decide, by decide, by decide⟩

/-- C6: the basic-type tags are `NIL` = 0, `BOOLEAN` = 1, `LIGHTUSERDATA` = 2, `NUMBER` = 3,
`STRING` = 4, `TABLE` = 5, `FUNCTION` = 6, `USERDATA` = 7, `THREAD` = 8, exactly the
consecutive integers 0..8, and `NUMTYPES` = 9 is both the number of tags and `THREAD + 1`. -/
theorem type_tags_consecutive :
    type_tags =
      [("NIL", 0), ("BOOLEAN", 1), ("LIGHTUSERDATA", 2), ("NUMBER", 3), ("STRING", 4),
       ("TABLE", 5), ("FUNCTION", 6), ("USERDATA", 7), ("THREAD", 8)] ∧
    type_tags.map Prod.snd = (List.range 9).map Int.ofNat ∧
    (∀ v : Int, v ∈ type_tags.map Prod.snd ↔ 0 ≤ v ∧ v ≤ 8) ∧
    NUMTYPES = 9 ∧
    NUMTYPES = type_tags.length ∧
    NUMTYPES = THREAD + 1 := by
  refine ⟨rfl, by decide, ?_, rfl, by decide, by decide⟩
  intro v
  simp only [type_tags, NIL, BOOLEAN, LIGHTUSERDATA, NUMBER, STRING, TABLE, FUNCTION,
    USERDATA, THREAD, List.map, List.mem_cons, List.mem_singleton, List.not_mem_nil, or_false]
  omega

end lua

namespace liblzma

open abi

/-- For a check ID up to 15 the shift does not leave the 32-bit result: the mask is the
power of two itself. -/
theorem LzmaIndexChecks_mask_eq_pow (id : Nat) (h : id ≤ 15) :
    LzmaIndexChecks_mask id = 2 ^ id := by
  unfold LzmaIndexChecks_mask
  rw [Nat.shiftLeft_eq, one_mul]
  apply Nat.mod_eq_of_lt
  calc 2 ^ id ≤ 2 ^ 15 := Nat.pow_le_pow_right (by decide) h
    _ < 2 ^ 32 := by decide

/-- C7: the `LzmaCheck` constants are `LZMACHECKNONE` = 0, `LZMACHECKCRC32` = 1,
`LZMACHECKCRC64` = 4, `LZMACHECKSHA256` = 10, each within `[0, LZMA_CHECK_ID_MAX]` where
`LZMA_CHECK_ID_MAX` = 15; the documented bitmask `1 << check_id` gives 2 for CRC32 and 1024
for SHA-256; for every check ID in [0, 15] the mask fits in the `uint32` result (nothing is
shifted out), and distinct IDs give distinct masks. -/
theorem LzmaCheck_values_and_masks :
    LzmaCheck_consts =
      [("LZMACHECKNONE", 0), ("LZMACHECKCRC32", 1), ("LZMACHECKCRC64", 4),
       ("LZMACHECKSHA256", 10)] ∧
    LZMA_CHECK_ID_MAX = 15 ∧
    (∀ p ∈ LzmaCheck_consts, 0 ≤ p.2 ∧ p.2 ≤ LZMA_CHECK_ID_MAX) ∧
    LzmaIndexChecks_mask LZMACHECKCRC32.toNat = 2 ∧
    LzmaIndexChecks_mask LZMACHECKSHA256.toNat = 1024 ∧
    (∀ id : Nat, (id : Int) ≤ LZMA_CHECK_ID_MAX →
      LzmaIndexChecks_mask id = 1 <<< id ∧ 1 <<< id ≤ UINT32_MAX) ∧
    (∀ i j : Nat, (i : Int) ≤ LZMA_CHECK_ID_MAX → (j : Int) ≤ LZMA_CHECK_ID_MAX →
      LzmaIndexChecks_mask i = LzmaIndexChecks_mask j → i = j) := by
  refine ⟨rfl, rfl, by decide, by decide, by decide, ?_, ?_⟩
  · intro id h
    have hid : id ≤ 15 := by unfold LZMA_CHECK_ID_MAX at h; omega
    have hpow : 2 ^ id ≤ 2 ^ 15 := Nat.pow_le_pow_right (by decide) hid
    refine ⟨?_, ?_⟩
    · rw [LzmaIndexChecks_mask_eq_pow id hid, Nat.shiftLeft_eq, one_mul]
    · rw [Nat.shiftLeft_eq, one_mul]
      unfold UINT32_MAX
      have : (2 : Nat) ^ 15 = 32768 := by norm_num
      omega
  · intro i j hi hj hij
    have hi15 : i ≤ 15 := by unfold LZMA_CHECK_ID_MAX at hi; omega
    have hj15 : j ≤ 15 := by unfold LZMA_CHECK_ID_MAX at hj; omega
    rw [LzmaIndexChecks_mask_eq_pow i hi15, LzmaIndexChecks_mask_eq_pow j hj15] at hij
    exact Nat.pow_right_injective (le_refl 2) hij

/-- Instance of C7 at the two largest check IDs, 14 and 15: their masks are 16384 and
32768, both within `uint32`, and they differ. -/
theorem LzmaCheck_values_and_masks_witness :
    (LzmaIndexChecks_mask 15 = 1 <<< 15 ∧ 1 <<< 15 ≤ UINT32_MAX) ∧
    (LzmaIndexChecks_mask 14 = LzmaIndexChecks_mask 15 → 14 = 15) :=
  ⟨LzmaCheck_values_and_masks.2.2.2.2.2.1 15 (by decide),
   LzmaCheck_values_and_masks.2.2.2.2.2.2 14 15 (by decide) (by decide)⟩

/-- C8: the documented Check-size table has `LZMA_CHECK_ID_MAX + 1` = 16 entries, is
non-decreasing, and its maximum is `LZMA_CHECK_SIZE_MAX` = 64, which is the length of the
array field `LzmaBlock.RawCheck`; so for every check ID in [0, 15] the table has an entry
and that many bytes fit in `RawCheck` (CRC32 4, CRC64 8, SHA-256 32 bytes). -/
theorem check_size_table_fits_RawCheck :
    check_size_table.length = 16 ∧
    (check_size_table.length : Int) = LZMA_CHECK_ID_MAX + 1 ∧
    check_size_table.Sorted (· ≤ ·) ∧
    ((∀ s ∈ check_size_table, (s : Int) ≤ LZMA_CHECK_SIZE_MAX) ∧
      LZMA_CHECK_SIZE_MAX.toNat ∈ check_size_table) ∧
    LZMA_CHECK_SIZE_MAX = 64 ∧
    fieldArrayLen LzmaBlock "RawCheck" = some LZMA_CHECK_SIZE_MAX.toNat ∧
    (∀ id : Nat, (id : Int) ≤ LZMA_CHECK_ID_MAX →
      ∃ size len, check_size_table[id]? = some size ∧
        fieldArrayLen LzmaBlock "RawCheck" = some len ∧ size ≤ len) ∧
    check_size_table[LZMACHECKCRC32.toNat]? = some 4 ∧
    check_size_table[LZMACHECKCRC64.toNat]? = some 8 ∧
    check_size_table[LZMACHECKSHA256.toNat]? = some 32 := by
  refine ⟨rfl, by decide, by decide, ⟨by decide, by decide⟩, rfl, by decide, ?_,
    by decide, by decide, by decide⟩
  intro id h
  have hid : id < 16 := by unfold LZMA_CHECK_ID_MAX at h; omega
  interval_cases id <;> exact ⟨_, 64, rfl, by decide, by decide⟩

/-- Instance of C8 at check ID 15, whose 64-byte check value fills `RawCheck` exactly. -/
theorem check_size_table_fits_RawCheck_witness :
    ∃ size len, check_size_table[15]? = some size ∧
      fieldArrayLen LzmaBlock "RawCheck" = some len ∧ size ≤ len :=
  check_size_table_fits_RawCheck.2.2.2.2.2.2.1 15 (by decide)

/-- C9: for every check ID `c` in [0, 15], `LzmaCheckSize(c)` (the linked function
`lzma_check_size`) returns the `c`-th entry of the table
{0, 4, 4, 4, 8, 8, 8, 16, 16, 16, 32, 32, 32, 64, 64, 64}; for every argument outside
[0, 15], negative ones included, it returns `UINT32_MAX` = 4294967295. -/
theorem lzma_check_size_table_or_max (c : LzmaCheck) :
    (0 ≤ c ∧ c ≤ 15 →
      [0, 4, 4, 4, 8, 8, 8, 16, 16, 16, 32, 32, 32, 64, 64, 64][c.toNat]? =
        some (lzma_check_size c)) ∧
    (¬ (0 ≤ c ∧ c ≤ 15) → lzma_check_size c = 4294967295) := by
  constructor
  · rintro ⟨h0, h15⟩
    obtain ⟨n, rfl⟩ := Int.eq_ofNat_of_zero_le h0
    have h15n : (n : Int) ≤ 15 := h15
    have hn : n < 16 := by omega
    interval_cases n <;> decide
  · intro h
    simp [lzma_check_size, h, UINT32_MAX]

/-- Instances of C9: the sizes for CRC32, CRC64 and SHA-256, and two arguments outside the
range. -/
theorem lzma_check_size_table_or_max_witness :
    lzma_check_size LZMACHECKCRC32 = 4 ∧ lzma_check_size LZMACHECKCRC64 = 8 ∧
    lzma_check_size LZMACHECKSHA256 = 32 ∧
    lzma_check_size (-1) = 4294967295 ∧ lzma_check_size 16 = 4294967295 :=
  ⟨by decide, by decide, by decide,
   (lzma_check_size_table_or_max (-1)).2 (by decide),
   (lzma_check_size_table_or_max 16).2 (by decide)⟩

/-- C10: the index-iterator modes have upstream's `lzma_index_iter_mode` values
`LZMAINDEXITERANY` = 0, `LZMAINDEXITERSTREAM` = 1, `LZMAINDEXITERBLOCK` = 2 and
`LZMAINDEXITERNONEMPTYBLOCK` = 3, four pairwise distinct values. -/
theorem LzmaIndexIterMode_values_match_upstream :
    LzmaIndexIterMode_consts =
      [("LZMAINDEXITERANY", 0), ("LZMAINDEXITERSTREAM", 1), ("LZMAINDEXITERBLOCK", 2),
       ("LZMAINDEXITERNONEMPTYBLOCK", 3)] ∧
    LzmaIndexIterMode_consts.length = 4 ∧
    (LzmaIndexIterMode_consts.map Prod.snd).Nodup := by
  refine ⟨rfl, rfl, by decide⟩

end liblzma

namespace liblzma

open abi

/-- C11: under LP64 the layout of `LzmaStream` computed from its Go field list is upstream
`lzma_stream`'s: `NextIn` 0, `AvailIn` 8, `TotalIn` 16, `NextOut` 24, `AvailOut` 32,
`TotalOut` 40, `Allocator` 48, `Internal` 56, `ReservedPtr1..4` 64/72/80/88, `SeekPos` 96,
`ReservedInt2` 104, `ReservedInt3` 112, `ReservedInt4` 120, `ReservedEnum1` 128,
`ReservedEnum2` 132, total size 136, with no padding before any field nor at the end. -/
theorem LzmaStream_layout_LP64 :
    offsets LP64 LzmaStream =
      [("NextIn", 0), ("AvailIn", 8), ("TotalIn", 16), ("NextOut", 24), ("AvailOut", 32),
       ("TotalOut", 40), ("Allocator", 48), ("Internal", 56), ("ReservedPtr1", 64),
       ("ReservedPtr2", 72), ("ReservedPtr3", 80), ("ReservedPtr4", 88), ("SeekPos", 96),
       ("ReservedInt2", 104), ("ReservedInt3", 112), ("ReservedInt4", 120),
       ("ReservedEnum1", 128), ("ReservedEnum2", 132)] ∧
    structSize LP64 LzmaStream = 136 ∧
    (∀ f ∈ padding LP64 LzmaStream, f.2 = 0) ∧
    tailPadding LP64 LzmaStream = 0 ∧
    (LzmaStream.map (fun f => f.2.size LP64)).sum = 136 := by
  refine ⟨by decide, by decide, by decide, by decide, by decide⟩

end liblzma

namespace bzip2

open abi

/-- C12: under LP64 the layout of `BzStream` computed from its Go field list is upstream
`bz_stream`'s: `NextIn` 0, `AvailIn` 8, `TotalInLo32` 12, `TotalInHi32` 16, 4 bytes of
padding, `NextOut` 24, `AvailOut` 32, `TotalOutLo32` 36, `TotalOutHi32` 40, 4 bytes of
padding, `State` 48, `Bzalloc` 56, `Bzfree` 64, `Opaque` 72, total size 80. -/
theorem BzStream_layout_LP64 :
    offsets LP64 BzStream =
      [("NextIn", 0), ("AvailIn", 8), ("TotalInLo32", 12), ("TotalInHi32", 16),
       ("NextOut", 24), ("AvailOut", 32), ("TotalOutLo32", 36), ("TotalOutHi32", 40),
       ("State", 48), ("Bzalloc", 56), ("Bzfree", 64), ("Opaque", 72)] ∧
    padding LP64 BzStream =
      [("NextIn", 0), ("AvailIn", 0), ("TotalInLo32", 0), ("TotalInHi32", 0),
       ("NextOut", 4), ("AvailOut", 0), ("TotalOutLo32", 0), ("TotalOutHi32", 0),
       ("State", 4), ("Bzalloc", 0), ("Bzfree", 0), ("Opaque", 0)] ∧
    tailPadding LP64 BzStream = 0 ∧
    structSize LP64 BzStream = 80 := by
  refine ⟨by decide, by decide, by decide, by decide⟩

end bzip2

namespace libtool

open abi

/-- C13 fails on the declaration: under LP64 the Go struct `LtDlinfo` places `Filename` at
0, `Name` at 8 and `RefCount` at 16 as upstream `lt_dlinfo` does, but its three flags are
three 4-byte fields at 20, 24 and 28 and its size is 32, whereas upstream keeps the three
one-bit flags in the single 4-byte unit at offset 20 and has size 24: `IsSymglobal` and
`IsSymlocal` lie at or beyond the end of the upstream struct. -/
theorem LtDlinfo_layout_differs_from_lt_dlinfo :
    offsets LP64 LtDlinfo =
      [("Filename", 0), ("Name", 8), ("RefCount", 16), ("IsResident", 20),
       ("IsSymglobal", 24), ("IsSymlocal", 28)] ∧
    structSize LP64 LtDlinfo = 32 ∧
    offsets LP64 lt_dlinfo =
      [("filename", 0), ("name", 8), ("ref_count", 16),
       ("is_resident:1, is_symglobal:1, is_symlocal:1", 20)] ∧
    structSize LP64 lt_dlinfo = 24 ∧
    structSize LP64 LtDlinfo ≠ structSize LP64 lt_dlinfo ∧
    (∀ f ∈ offsets LP64 LtDlinfo, f.1 = "IsSymglobal" ∨ f.1 = "IsSymlocal" →
      structSize LP64 lt_dlinfo ≤ f.2) := by
  refine ⟨by decide, by decide, by decide, by decide, by decide, by decide⟩

end libtool

namespace liblzma

open abi

/-- C14, as stated, fails under ILP32: the Go declaration of `LzmaIndexIter` has six
pointer-sized slots in `Internal`, 24 bytes, and size 248, whereas upstream
`lzma_index_iter` has six 8-byte union slots, 48 bytes, and size 272 (the same sizes
result when 8-byte scalars are 4-aligned, as on i386). -/
theorem LzmaIndexIter_size_differs_ILP32 :
    structSize ILP32 LzmaIndexIter = 248 ∧
    structSize ILP32 lzma_index_iter = 272 ∧
    structSize ILP32 LzmaIndexIter ≠ structSize ILP32 lzma_index_iter ∧
    LzmaIndexIter.map (fun f => f.2.size ILP32) = [104, 120, 24] ∧
    lzma_index_iter.map (fun f => f.2.size ILP32) = [104, 120, 48] ∧
    structSize ILP32_i386 LzmaIndexIter = 248 ∧
    structSize ILP32_i386 lzma_index_iter = 272 := by
  refine ⟨by decide, by decide, by decide, by decide, by decide, by decide, by decide⟩

/-- C14, amended: under LP64 the size and field offsets of `LzmaIndexIter` computed from
its Go declaration are those of upstream `lzma_index_iter`: `Stream` at 0 (120 bytes),
`Block` at 120 (136 bytes), `Internal` at 256 (48 bytes), total size 304. Under ILP32 the
field offsets and the sizes of `Stream` and `Block` are upstream's as well; only `Internal`
and with it the total size are not. -/
theorem LzmaIndexIter_layout_LP64 :
    (offsets LP64 LzmaIndexIter = [("Stream", 0), ("Block", 120), ("Internal", 256)] ∧
      LzmaIndexIter.map (fun f => f.2.size LP64) = [120, 136, 48] ∧
      structSize LP64 LzmaIndexIter = 304 ∧
      offsets LP64 lzma_index_iter = offsets LP64 LzmaIndexIter ∧
      lzma_index_iter.map (fun f => f.2.size LP64) =
        LzmaIndexIter.map (fun f => f.2.size LP64) ∧
      structSize LP64 lzma_index_iter = structSize LP64 LzmaIndexIter) ∧
    (offsets ILP32 LzmaIndexIter = [("Stream", 0), ("Block", 104), ("Internal", 224)] ∧
      offsets ILP32 lzma_index_iter = offsets ILP32 LzmaIndexIter ∧
      (lzma_index_iter.map (fun f => f.2.size ILP32)).take 2 =
        (LzmaIndexIter.map (fun f => f.2.size ILP32)).take 2) := by
  refine ⟨⟨by decide, by decide, by decide, by decide, by decide, by decide⟩,
    ⟨by decide, by decide, by decide⟩⟩

end liblzma

namespace lua

open abi

/-- C15: under LP64 the layout of `Debug` computed from its Go field list is upstream
`lua_Debug`'s: `Event` 0, `Name` 8, `Namewhat` 16, `What` 24, `Source` 32, `Srclen` 40,
`Currentline` 48, `Linedefined` 52, `Lastlinedefined` 56, `Nups` 60, `Nparams` 61,
`Isvararg` 62, `Istailcall` 63, `Ftransfer` 64, `Ntransfer` 66, `ShortSrc` 68, `ICi` 128,
total size 136; the length of `ShortSrc` is the constant `IDSIZE` = 60. -/
theorem Debug_layout_LP64 :
    offsets LP64 Debug =
      [("Event", 0), ("Name", 8), ("Namewhat", 16), ("What", 24), ("Source", 32),
       ("Srclen", 40), ("Currentline", 48), ("Linedefined", 52), ("Lastlinedefined", 56),
       ("Nups", 60), ("Nparams", 61), ("Isvararg", 62), ("Istailcall", 63),
       ("Ftransfer", 64), ("Ntransfer", 66), ("ShortSrc", 68), ("ICi", 128)] ∧
    structSize LP64 Debug = 136 ∧
    IDSIZE = 60 ∧
    fieldArrayLen Debug "ShortSrc" = some IDSIZE.toNat := by
  refine ⟨by decide, by decide, rfl, by decide⟩

/-- C16: under LP64 the layout of `Buffer` is upstream `luaL_Buffer`'s: `B` 0, `Size` 8,
`N` 16, `L` 24, `Init` 32, total size 1056; the length of `Init.B`, 1024, is upstream's
`LUAL_BUFFERSIZE` = 16 * sizeof(void*) * sizeof(lua_Number) = 16 * 8 * 8, `lua_Number`
being the 8-byte `Number`. -/
theorem Buffer_layout_LP64 :
    offsets LP64 Buffer = [("B", 0), ("Size", 8), ("N", 16), ("L", 24), ("Init", 32)] ∧
    structSize LP64 Buffer = 1056 ∧
    (Buffer.lookup "Init").map (fun t => offsets LP64 t.fields) = some [("B", 0)] ∧
    (Buffer.lookup "Init").bind (fun t => fieldArrayLen t.fields "B") = some 1024 ∧
    Number.size LP64 = 8 ∧
    GoType.pointer.size LP64 = 8 ∧
    1024 = 16 * GoType.pointer.size LP64 * Number.size LP64 := by
  refine ⟨by decide, by decide, by decide, by decide, by decide, by decide, by decide⟩

end lua

namespace linkage

set_option maxRecDepth 100000
set_option maxHeartbeats 2000000

/-- The linked symbols of package `bzip2` are pairwise distinct. -/
theorem bzip2_symbols_nodup : (bzip2.link_decls.flatMap Prod.snd).Nodup := by
  decide

/-- The linked symbols of package `libtool` are pairwise distinct. -/
theorem libtool_symbols_nodup : (libtool.link_decls.flatMap Prod.snd).Nodup := by
  decide

/-- The linked symbols of package `lua` are pairwise distinct. -/
theorem lua_symbols_nodup : (lua.link_decls.flatMap Prod.snd).Nodup := by
  decide

/-- The linked symbols of package `liblzma` are pairwise distinct. -/
theorem liblzma_symbols_nodup : (liblzma.link_decls.flatMap Prod.snd).Nodup := by
  decide

/-- Exactly one link directive stands above every declaration of the four packages. -/
theorem one_directive_each :
    (∀ d ∈ bzip2.link_decls, d.2.length = 1) ∧ (∀ d ∈ libtool.link_decls, d.2.length = 1) ∧
    (∀ d ∈ lua.link_decls, d.2.length = 1) ∧ (∀ d ∈ liblzma.link_decls, d.2.length = 1) := by
  refine ⟨by decide, by decide, by decide, by decide⟩

/-- C17: in each of the packages `bzip2`, `libtool`, `lua` and `liblzma` every declared
function or method carries exactly one link directive, and no two declarations of a
package link to the same C symbol (symbols compared as written, case-sensitively). The
top-level `Read` of `bzip2` links to `BZ2_bzRead` and the method `(*BZFILE).Read` to the
different symbol `BZ2_bzread`; `(*State).Tolstring` links to `lua_tolstring` and
`(*State).Tolstring__1` to `luaL_tolstring`. -/
theorem link_directive_unique_and_symbols_distinct :
    ((∀ d ∈ bzip2.link_decls, d.2.length = 1) ∧
      (bzip2.link_decls.flatMap Prod.snd).Nodup ∧ bzip2.link_decls.length = 24) ∧
    ((∀ d ∈ libtool.link_decls, d.2.length = 1) ∧
      (libtool.link_decls.flatMap Prod.snd).Nodup ∧ libtool.link_decls.length = 38) ∧
    ((∀ d ∈ lua.link_decls, d.2.length = 1) ∧
      (lua.link_decls.flatMap Prod.snd).Nodup ∧ lua.link_decls.length = 154) ∧
    ((∀ d ∈ liblzma.link_decls, d.2.length = 1) ∧
      (liblzma.link_decls.flatMap Prod.snd).Nodup ∧ liblzma.link_decls.length = 107) ∧
    bzip2.link_decls.lookup "Read" = some ["BZ2_bzRead"] ∧
    bzip2.link_decls.lookup "(*BZFILE).Read" = some ["BZ2_bzread"] ∧
    "BZ2_bzRead" ≠ "BZ2_bzread" ∧
    lua.link_decls.lookup "(*State).Tolstring" = some ["lua_tolstring"] ∧
    lua.link_decls.lookup "(*State).Tolstring__1" = some ["luaL_tolstring"] ∧
    "lua_tolstring" ≠ "luaL_tolstring" := by
  refine ⟨⟨one_directive_each.1, bzip2_symbols_nodup, rfl⟩,
    ⟨one_directive_each.2.1, libtool_symbols_nodup, rfl⟩,
    ⟨one_directive_each.2.2.1, lua_symbols_nodup, rfl⟩,
    ⟨one_directive_each.2.2.2, liblzma_symbols_nodup, rfl⟩,
    by decide, by decide, by decide, by decide, by decide, by decide⟩

end linkage

namespace liblzma

/-- C21: the version constants are those of the pinned release 5.4.5 stable: major 5,
minor 4, patch 5, stability values alpha 0, beta 1, stable 2, and the empty stability
string, which stands for stable; upstream's `LZMA_VERSION` formula combines them to
50040052, a value that fits the `uint32` result of `LzmaVersionNumber`. -/
theorem version_constants_are_5_4_5_stable :
    LZMA_VERSION_MAJOR = 5 ∧ LZMA_VERSION_MINOR = 4 ∧ LZMA_VERSION_PATCH = 5 ∧
    LZMA_VERSION_STABILITY_ALPHA = 0 ∧ LZMA_VERSION_STABILITY_BETA = 1 ∧
    LZMA_VERSION_STABILITY_STABLE = 2 ∧
    LZMA_VERSION_STABILITY_STRING = "" ∧
    stabilityOfString LZMA_VERSION_STABILITY_STRING = some LZMA_VERSION_STABILITY_STABLE ∧
    LZMA_VERSION LZMA_VERSION_MAJOR LZMA_VERSION_MINOR LZMA_VERSION_PATCH
      LZMA_VERSION_STABILITY_STABLE = 50040052 ∧
    (50040052 : Int) ≤ UINT32_MAX := by
  refine ⟨rfl, rfl, rfl, rfl, rfl, rfl, rfl, by decide, by decide, by decide⟩

end liblzma

namespace lua

open text

/-- C22: the version constants are those of release 5.4.7: `VERSION_MAJOR` = "5",
`VERSION_MINOR` = "4", `VERSION_RELEASE` = "7", and `VERSION_NUM` = 504 is 100 times the
major version plus the minor version, both read as decimal numbers. -/
theorem version_constants_are_5_4_7 :
    VERSION_MAJOR = "5" ∧ VERSION_MINOR = "4" ∧ VERSION_RELEASE = "7" ∧
    VERSION_NUM = 504 ∧
    readDecimal VERSION_MAJOR = some 5 ∧ readDecimal VERSION_MINOR = some 4 ∧
    (readDecimal VERSION_MAJOR).bind
      (fun major => (readDecimal VERSION_MINOR).map (fun minor => 100 * major + minor)) =
      some VERSION_NUM.toNat := by
  refine ⟨rfl, rfl, rfl, rfl, by decide, by decide, by decide⟩

end lua

namespace liblzma

/-- A value below 128^(n+1) needs at most n+1 bytes. -/
theorem vliBytes_le_of_lt (n : Nat) : ∀ v : Nat, v < 128 ^ (n + 1) → vliBytes v ≤ n + 1 := by
  induction n with
  | zero =>
    intro v hv
    rw [vliBytes]
    simp at hv
    simp [hv]
  | succ n ih =>
    intro v hv
    rw [vliBytes]
    split
    · omega
    · have hdiv : v / 128 < 128 ^ (n + 1) := by
        rw [Nat.div_lt_iff_lt_mul (by decide)]
        calc v < 128 ^ (n + 1 + 1) := hv
          _ = 128 ^ (n + 1) * 128 := by rw [Nat.pow_succ]
      have := ih (v / 128) hdiv
      omega

/-- A value of at least 128^n needs more than n bytes. -/
theorem lt_vliBytes_of_le (n : Nat) : ∀ v : Nat, 128 ^ n ≤ v → n < vliBytes v := by
  induction n with
  | zero =>
    intro v _
    rw [vliBytes]
    split <;> omega
  | succ n ih =>
    intro v hv
    have h128 : 128 ≤ v := by
      calc 128 = 128 ^ 1 := by norm_num
        _ ≤ 128 ^ (n + 1) := Nat.pow_le_pow_right (by decide) (by omega)
        _ ≤ v := hv
    rw [vliBytes]
    split
    · omega
    · have hdiv : 128 ^ n ≤ v / 128 := by
        rw [Nat.le_div_iff_mul_le (by decide)]
        calc 128 ^ n * 128 = 128 ^ (n + 1) := by rw [Nat.pow_succ]
          _ ≤ v := hv
      have := ih (v / 128) hdiv
      omega

/-- C23: `LZMA_BLOCK_HEADER_SIZE_MIN` = 8 and `LZMA_BLOCK_HEADER_SIZE_MAX` = 1024 are
multiples of four with MIN <= MAX, and they are the least and the greatest value of
`(b + 1) * 4` over the size bytes `b` in 1..255: every header size decoded from a non-zero
byte lies in [MIN, MAX], both bounds are attained, and the decodable sizes are exactly
those the documented rule "a multiple of four and between 8 and 1024 inclusive" admits. -/
theorem block_header_size_limits :
    LZMA_BLOCK_HEADER_SIZE_MIN = 8 ∧ LZMA_BLOCK_HEADER_SIZE_MAX = 1024 ∧
    LZMA_BLOCK_HEADER_SIZE_MIN % 4 = 0 ∧ LZMA_BLOCK_HEADER_SIZE_MAX % 4 = 0 ∧
    LZMA_BLOCK_HEADER_SIZE_MIN ≤ LZMA_BLOCK_HEADER_SIZE_MAX ∧
    (∀ b : Nat, 1 ≤ b → b ≤ 255 →
      LZMA_BLOCK_HEADER_SIZE_MIN ≤ lzma_block_header_size_decode b ∧
      (lzma_block_header_size_decode b : Int) ≤ LZMA_BLOCK_HEADER_SIZE_MAX ∧
      lzma_block_header_size_decode b % 4 = 0) ∧
    (lzma_block_header_size_decode 1 : Int) = LZMA_BLOCK_HEADER_SIZE_MIN ∧
    (lzma_block_header_size_decode 255 : Int) = LZMA_BLOCK_HEADER_SIZE_MAX ∧
    (∀ n : Nat, validHeaderSize n = true ↔
      ∃ b : Nat, 1 ≤ b ∧ b ≤ 255 ∧ lzma_block_header_size_decode b = n) := by
  refine ⟨rfl, rfl, by decide, by decide, by decide, ?_, by decide, by decide, ?_⟩
  · intro b h1 h255
    simp only [lzma_block_header_size_decode, LZMA_BLOCK_HEADER_SIZE_MIN,
      LZMA_BLOCK_HEADER_SIZE_MAX]
    refine ⟨by omega, by omega, by omega⟩
  · intro n
    simp only [validHeaderSize, lzma_block_header_size_decode, Bool.and_eq_true,
      beq_iff_eq, decide_eq_true_eq]
    constructor
    · rintro ⟨⟨h4, h8⟩, h1024⟩
      exact ⟨n / 4 - 1, by omega, by omega, by omega⟩
    · rintro ⟨b, h1, h255, rfl⟩
      refine ⟨⟨?_, ?_⟩, ?_⟩ <;> omega

/-- Instance of C23 at the size byte 0x7F: it decodes to a header of 512 bytes. -/
theorem block_header_size_limits_witness :
    LZMA_BLOCK_HEADER_SIZE_MIN ≤ lzma_block_header_size_decode 127 ∧
    (lzma_block_header_size_decode 127 : Int) ≤ LZMA_BLOCK_HEADER_SIZE_MAX ∧
    lzma_block_header_size_decode 127 % 4 = 0 :=
  block_header_size_limits.2.2.2.2.2.1 127 (by decide) (by decide)

/-- C24: `LZMA_VLI_BYTES_MAX` = 9 is the exact upper end of the encoded-size range 1-9:
with 7 payload bits per byte every valid integer `v <= LZMA_VLI_MAX` = 2^63 - 1 is below
2^(7*9) and takes between 1 and 9 bytes, while 2^(7*8) <= 2^63 - 1, so the largest valid
value does not fit in 8 bytes and takes exactly 9. -/
theorem vli_bytes_max_exact :
    LZMA_VLI_BYTES_MAX = 9 ∧
    LZMA_VLI_MAX = 2 ^ 63 - 1 ∧
    LZMA_VLI_MAX < 2 ^ (7 * LZMA_VLI_BYTES_MAX.toNat) ∧
    2 ^ (7 * (LZMA_VLI_BYTES_MAX.toNat - 1)) ≤ LZMA_VLI_MAX ∧
    (∀ v : Nat, v ≤ LZMA_VLI_MAX →
      v < 2 ^ (7 * LZMA_VLI_BYTES_MAX.toNat) ∧
      1 ≤ vliBytes v ∧ vliBytes v ≤ LZMA_VLI_BYTES_MAX.toNat) ∧
    vliBytes LZMA_VLI_MAX = LZMA_VLI_BYTES_MAX.toNat := by
  have hmax : LZMA_VLI_MAX = 2 ^ 63 - 1 := by decide
  have h9 : LZMA_VLI_BYTES_MAX.toNat = 9 := by decide
  have hlt : LZMA_VLI_MAX < 128 ^ (8 + 1) := by decide
  have hge : 128 ^ 8 ≤ LZMA_VLI_MAX := by decide
  refine ⟨rfl, hmax, by decide, by decide, ?_, ?_⟩
  · intro v hv
    have hv9 : v < 128 ^ (8 + 1) := Nat.lt_of_le_of_lt hv hlt
    refine ⟨?_, ?_, ?_⟩
    · rw [h9]
      calc v < 128 ^ (8 + 1) := hv9
        _ = 2 ^ (7 * 9) := by norm_num
    · rw [vliBytes]
      split <;> omega
    · rw [h9]
      exact vliBytes_le_of_lt 8 v hv9
  · rw [h9]
    have hle := vliBytes_le_of_lt 8 LZMA_VLI_MAX hlt
    have hgt := lt_vliBytes_of_le 8 LZMA_VLI_MAX hge
    omega

/-- Instance of C24 at `v` = 2^56, the least value that needs nine bytes. -/
theorem vli_bytes_max_exact_witness :
    72057594037927936 < 2 ^ (7 * LZMA_VLI_BYTES_MAX.toNat) ∧
    1 ≤ vliBytes 72057594037927936 ∧
    vliBytes 72057594037927936 ≤ LZMA_VLI_BYTES_MAX.toNat :=
  vli_bytes_max_exact.2.2.2.2.1 72057594037927936 (by decide)

end liblzma

namespace liblzma

open text

/-- C25: the match-finder selectors are `LZMAMFHC3` = 0x03, `LZMAMFHC4` = 0x04,
`LZMAMFBT2` = 0x12, `LZMAMFBT3` = 0x13, `LZMAMFBT4` = 0x14 and the modes `LZMAMODEFAST` = 1,
`LZMAMODENORMAL` = 2; for every match finder the low four bits are the number of hashed
bytes its identifier ends in (2, 3 or 4), and bit 0x10 is set exactly for the binary-tree
(BT) finders. -/
theorem match_finder_and_mode_values :
    LzmaMatchFinder_consts =
      [("LZMAMFHC3", 0x03), ("LZMAMFHC4", 0x04), ("LZMAMFBT2", 0x12), ("LZMAMFBT3", 0x13),
       ("LZMAMFBT4", 0x14)] ∧
    LzmaMatchFinder_consts.map Prod.snd = [3, 4, 18, 19, 20] ∧
    LzmaMode_consts = [("LZMAMODEFAST", 1), ("LZMAMODENORMAL", 2)] ∧
    (∀ p ∈ LzmaMatchFinder_consts,
      lastDigit p.1 = some (p.2.toNat % 16) ∧ 2 ≤ p.2.toNat % 16 ∧ p.2.toNat % 16 ≤ 4) ∧
    (∀ p ∈ LzmaMatchFinder_consts, p.2.toNat / 16 % 2 = 1 ↔ isBTName p.1 = true) ∧
    (LzmaMatchFinder_consts.filter (fun p => isBTName p.1)).map Prod.fst =
      ["LZMAMFBT2", "LZMAMFBT3", "LZMAMFBT4"] := by
  refine ⟨by decide, by decide, by decide, by decide, by decide, by decide⟩

end liblzma

namespace lua

open abi text

/-- C26: the garbage-collector option codes are `GCSTOP` = 0, `GCRESTART` = 1,
`GCCOLLECT` = 2, `GCCOUNT` = 3, `GCCOUNTB` = 4, `GCSTEP` = 5, `GCSETPAUSE` = 6,
`GCSETSTEPMUL` = 7, `GCISRUNNING` = 9, `GCGEN` = 10, `GCINC` = 11: eleven pairwise distinct
codes within 0..11, none of them 8. -/
theorem gc_option_values :
    gc_consts =
      [("GCSTOP", 0), ("GCRESTART", 1), ("GCCOLLECT", 2), ("GCCOUNT", 3), ("GCCOUNTB", 4),
       ("GCSTEP", 5), ("GCSETPAUSE", 6), ("GCSETSTEPMUL", 7), ("GCISRUNNING", 9),
       ("GCGEN", 10), ("GCINC", 11)] ∧
    gc_consts.length = 11 ∧
    (gc_consts.map Prod.snd).Nodup ∧
    (∀ p ∈ gc_consts, 0 ≤ p.2 ∧ p.2 ≤ 11) ∧
    (∀ p ∈ gc_consts, p.2 ≠ 8) ∧
    (∀ v : Int, v ∈ gc_consts.map Prod.snd ↔ 0 ≤ v ∧ v ≤ 11 ∧ v ≠ 8) := by
  refine ⟨rfl, rfl, by decide, by decide, by decide, ?_⟩
  intro v
  simp only [gc_consts, GCSTOP, GCRESTART, GCCOLLECT, GCCOUNT, GCCOUNTB, GCSTEP, GCSETPAUSE,
    GCSETSTEPMUL, GCISRUNNING, GCGEN, GCINC, List.map, List.mem_cons, List.mem_singleton,
    List.not_mem_nil, or_false]
  omega

/-- C29 fails at one constant: the strings of the nine library-name constants of
`lualib.go` are upstream's and pairwise distinct, and eight constants are named by the
macro without `LUA_`, but the constant for `LUA_TABLIBNAME` is declared as `ABLIBNAME`, not
`TABLIBNAME`; the package has no constant `TABLIBNAME`. -/
theorem lualib_names_differ_at_TABLIBNAME :
    lualib_consts.map Prod.snd = lualib_h_macros.map Prod.snd ∧
    (lualib_consts.map Prod.snd).Nodup ∧
    lualib_h_macros.map (fun m => withoutLUA m.1) =
      ["COLIBNAME", "TABLIBNAME", "IOLIBNAME", "OSLIBNAME", "STRLIBNAME", "UTF8LIBNAME",
       "MATHLIBNAME", "DBLIBNAME", "LOADLIBNAME"] ∧
    lualib_consts.lookup "TABLIBNAME" = none ∧
    lualib_consts.lookup "ABLIBNAME" = some "table" ∧
    (List.zip lualib_consts lualib_h_macros).filter
        (fun p => decide (p.1.1 ≠ withoutLUA p.2.1)) =
      [(("ABLIBNAME", "table"), ("LUA_TABLIBNAME", "table"))] := by
  refine ⟨by decide, by decide, by decide, by decide, by decide, by decide⟩

/-- C30 fails for counts from 128 on: `Debug.Nups` and `Debug.Nparams` are declared
`int8`, so a byte `b` written by the engine reads as `b` only when `b < 128` and as
`b - 256` otherwise; a function with 200 upvalues reads as `Nups` = -56. A `uint8` field
would read every byte as itself. -/
theorem Debug_Nups_reads_200_as_negative :
    Debug.lookup "Nups" = some GoType.int8 ∧
    Debug.lookup "Nparams" = some GoType.int8 ∧
    (Debug.lookup "Nups").bind (fun t => readByte t 200) = some (-56) ∧
    (Debug.lookup "Nparams").bind (fun t => readByte t 255) = some (-1) ∧
    (∀ b : Nat, b ≤ 255 → (readByte GoType.int8 b = some (b : Int) ↔ b < 128)) ∧
    (∀ b : Nat, b ≤ 255 → readByte GoType.uint8 b = some (b : Int)) := by
  refine ⟨?_, ?_, ?_, ?_, ?_, ?_⟩
  · rfl
  · rfl
  · rfl
  · rfl
  · intro b _
    simp only [readByte]
    constructor
    · intro h
      by_contra hb
      simp only [hb, if_false, Option.some.injEq] at h
      omega
    · intro hb
      simp [hb]
  · intro b _
    rfl

end lua

namespace bindings

open abi text

set_option maxRecDepth 100000
set_option maxHeartbeats 2000000

/-- A stub entry with a body runs to the zero value of its result type and hands the
receiver contents back unchanged, whatever the receiver and the arguments are. -/
theorem runBody_of_isZeroStub (d : String × String × Option (List String))
    (h : isZeroStub d = true) (body : List String) (hb : d.2.2 = some body)
    (σ α : Type) (recv : σ) (args : α) :
    ∃ v, zeroValue d.2.1 = some v ∧ runBody body recv args = some (recv, v) := by
  unfold isZeroStub at h
  rw [hb] at h
  simp only [Bool.and_eq_true, beq_iff_eq] at h
  obtain ⟨hsome, heq⟩ := h
  obtain ⟨v, hv⟩ := Option.isSome_iff_exists.mp hsome
  refine ⟨v, ?_, ?_⟩
  · rw [← heq, hv]
  · simp [runBody, hv]

/-- Every declaration of package `bzip2` is a stub. -/
theorem bzip2_stubs : ∀ d ∈ bzip2.func_bodies, isZeroStub d = true := by
  decide

/-- Every declaration of package `libtool` is a stub. -/
theorem libtool_stubs : ∀ d ∈ libtool.func_bodies, isZeroStub d = true := by
  decide

/-- Every declaration of package `lua` is a stub. -/
theorem lua_stubs : ∀ d ∈ lua.func_bodies, isZeroStub d = true := by
  decide

/-- Every declaration of package `liblzma` is a stub. -/
theorem liblzma_stubs : ∀ d ∈ liblzma.func_bodies, isZeroStub d = true := by
  decide

/-- The body of every declaration is absent, empty, `return 0` or `return nil`. -/
theorem body_forms :
    ∀ pkg ∈ [bzip2.func_bodies, libtool.func_bodies, lua.func_bodies, liblzma.func_bodies],
      ∀ d ∈ pkg, d.2.2 = none ∨ d.2.2 = some [] ∨ d.2.2 = some ["return 0"] ∨
        d.2.2 = some ["return nil"] := by
  decide

/-- The body tables list the declarations of the link tables, in the same order. -/
theorem body_tables_match_link_tables :
    bzip2.func_bodies.map Prod.fst = bzip2.link_decls.map Prod.fst ∧
    libtool.func_bodies.map Prod.fst = libtool.link_decls.map Prod.fst ∧
    lua.func_bodies.map Prod.fst = lua.link_decls.map Prod.fst ∧
    liblzma.func_bodies.map Prod.fst = liblzma.link_decls.map Prod.fst := by
  refine ⟨by decide, by decide, by decide, by decide⟩

/-- C27: every function of the packages `bzip2`, `libtool`, `lua` and `liblzma` is declared
without a body or has a body that is empty or a single `return 0` or `return nil`. Each
body is therefore a constant function: for every receiver and arguments it leaves the
receiver contents as they were and returns the zero value of its result type. For every
stream and action the body of `(*LzmaStream).LzmaCode` yields 0 = `LZMAOK`, and the body
of `(*BzStream).Compress` yields 0 = `BZ_OK`. -/
theorem bodies_are_constant_zero_stubs :
    (∀ pkg ∈ [bzip2.func_bodies, libtool.func_bodies, lua.func_bodies, liblzma.func_bodies],
      ∀ d ∈ pkg, d.2.2 = none ∨ d.2.2 = some [] ∨ d.2.2 = some ["return 0"] ∨
        d.2.2 = some ["return nil"]) ∧
    (∀ pkg ∈ [bzip2.func_bodies, libtool.func_bodies, lua.func_bodies, liblzma.func_bodies],
      ∀ d ∈ pkg, ∀ body, d.2.2 = some body → ∀ (σ α : Type) (recv : σ) (args : α),
        ∃ v, zeroValue d.2.1 = some v ∧ runBody body recv args = some (recv, v)) ∧
    (bzip2.func_bodies.map Prod.fst = bzip2.link_decls.map Prod.fst ∧
      libtool.func_bodies.map Prod.fst = libtool.link_decls.map Prod.fst ∧
      lua.func_bodies.map Prod.fst = lua.link_decls.map Prod.fst ∧
      liblzma.func_bodies.map Prod.fst = liblzma.link_decls.map Prod.fst) ∧
    liblzma.func_bodies.lookup "(*LzmaStream).LzmaCode" = some ("LzmaRet", some ["return 0"]) ∧
    bzip2.func_bodies.lookup "(*BzStream).Compress" = some ("c.Int", some ["return 0"]) ∧
    (∀ (stream : FieldValues) (action : liblzma.LzmaAction),
      liblzma.LzmaCode stream action = (stream, liblzma.LZMAOK) ∧ liblzma.LZMAOK = 0) ∧
    (∀ (stream : FieldValues) (action : Int),
      bzip2.Compress stream action = (stream, bzip2.BZ_OK) ∧ bzip2.BZ_OK = 0) := by
  refine ⟨body_forms, ?_, body_tables_match_link_tables, by decide, by decide, ?_, ?_⟩
  · intro pkg hpkg d hd body hb σ α recv args
    have hstub : isZeroStub d = true := by
      simp only [List.mem_cons, List.mem_singleton, List.not_mem_nil, or_false] at hpkg
      rcases hpkg with rfl | rfl | rfl | rfl
      · exact bzip2_stubs d hd
      · exact libtool_stubs d hd
      · exact lua_stubs d hd
      · exact liblzma_stubs d hd
    exact runBody_of_isZeroStub d hstub body hb σ α recv args
  · intro stream action
    exact ⟨rfl, rfl⟩
  · intro stream action
    exact ⟨rfl, rfl⟩

/-- Instance of C27 at a stream with `AvailIn` = 7 and the action `LZMAFINISH`: the body of
`LzmaCode` leaves the stream as it was and returns the zero value. -/
theorem bodies_are_constant_zero_stubs_witness :
    ∃ v, zeroValue "LzmaRet" = some v ∧
      runBody ["return 0"] ([("AvailIn", 7)] : FieldValues) liblzma.LZMAFINISH =
        some ([("AvailIn", 7)], v) :=
  bodies_are_constant_zero_stubs.2.1 liblzma.func_bodies (by simp)
    ("(*LzmaStream).LzmaCode", "LzmaRet", some ["return 0"]) (by decide) ["return 0"] rfl
    FieldValues liblzma.LzmaAction [("AvailIn", 7)] liblzma.LZMAFINISH

/-- In package `liblzma` every Go name is the CamelCase of the symbol it is linked to. -/
theorem liblzma_names_camel :
    ∀ d ∈ liblzma.link_decls, ∀ sym ∈ d.2, declName d.1 = camelCase sym := by
  decide

/-- In package `libtool` every Go name is the CamelCase of the symbol it is linked to. -/
theorem libtool_names_camel :
    ∀ d ∈ libtool.link_decls, ∀ sym ∈ d.2, declName d.1 = camelCase sym := by
  decide

/-- The Go names of package `liblzma`, receivers left out, are pairwise distinct. -/
theorem liblzma_names_nodup : (liblzma.link_decls.map (fun d => declName d.1)).Nodup := by
  decide

/-- The Go names of package `libtool`, receivers left out, are pairwise distinct. -/
theorem libtool_names_nodup : (libtool.link_decls.map (fun d => declName d.1)).Nodup := by
  decide

/-- C28: for every declaration of the `liblzma` and `libtool` bindings the Go function or
method name is the linked C symbol converted to CamelCase (split at `_`, upper-case the
first letter of each part, concatenate), as in `lzma_index_iter_init` ->
`LzmaIndexIterInit`, `lzma_stream_encoder_mt_memusage` -> `LzmaStreamEncoderMtMemusage` and
`lt_dlpreload_default` -> `LtDlpreloadDefault`; the Go names of a package are pairwise
distinct, so no directive pairs a Go name with the symbol of another declaration. -/
theorem go_name_is_camel_case_of_symbol :
    (∀ d ∈ liblzma.link_decls, ∀ sym ∈ d.2, declName d.1 = camelCase sym) ∧
    (∀ d ∈ libtool.link_decls, ∀ sym ∈ d.2, declName d.1 = camelCase sym) ∧
    (liblzma.link_decls.lookup "(*LzmaIndexIter).LzmaIndexIterInit" =
        some ["lzma_index_iter_init"] ∧
      camelCase "lzma_index_iter_init" = "LzmaIndexIterInit") ∧
    (liblzma.link_decls.lookup "(*LzmaMt).LzmaStreamEncoderMtMemusage" =
        some ["lzma_stream_encoder_mt_memusage"] ∧
      camelCase "lzma_stream_encoder_mt_memusage" = "LzmaStreamEncoderMtMemusage") ∧
    (libtool.link_decls.lookup "(*LtDlsymlist).LtDlpreloadDefault" =
        some ["lt_dlpreload_default"] ∧
      camelCase "lt_dlpreload_default" = "LtDlpreloadDefault") ∧
    (liblzma.link_decls.map (fun d => declName d.1)).Nodup ∧
    (libtool.link_decls.map (fun d => declName d.1)).Nodup ∧
    (∀ pkg ∈ [liblzma.link_decls, libtool.link_decls], ∀ d ∈ pkg, ∀ e ∈ pkg,
      ∀ sym ∈ e.2, declName d.1 = camelCase sym → declName d.1 = declName e.1) := by
  refine ⟨liblzma_names_camel, libtool_names_camel, ⟨by decide, by decide⟩,
    ⟨by decide, by decide⟩, ⟨by decide, by decide⟩, liblzma_names_nodup,
    libtool_names_nodup, ?_⟩
  intro pkg hpkg d _ e he sym hsym hname
  simp only [List.mem_cons, List.mem_singleton, List.not_mem_nil, or_false] at hpkg
  rcases hpkg with rfl | rfl
  · rw [hname, liblzma_names_camel e he sym hsym]
  · rw [hname, libtool_names_camel e he sym hsym]

/-- Instance of C28 at `lzma_code`, linked by the method `(*LzmaStream).LzmaCode`. -/
theorem go_name_is_camel_case_of_symbol_witness :
    declName "(*LzmaStream).LzmaCode" = camelCase "lzma_code" :=
  go_name_is_camel_case_of_symbol.1 ("(*LzmaStream).LzmaCode", ["lzma_code"]) (by decide)
    "lzma_code" (by decide)

end bindings
